import Mathlib

/-!
Shallow embedding of the OSS-Ticketing-System ingestion and routing core
(apps/api/app), with theorems settling the frozen claims about it.

Conventions of the embedding:
- UUIDs and row ids are `Nat`; byte strings are `List Nat` (each entry < 256);
  SQL `text`/`varchar` are `String`; timestamps and second counts are `Rat`
  (the worker backoff multiplies by 0.5).
- Database tables are Lean lists of row structures; `ON CONFLICT DO NOTHING`
  inserts become insert-if-absent on the conflict key; `RETURNING id` becomes
  a `nextId` counter threaded through the state.
- Python functions from apps/api/app are translated definition by definition,
  keeping the source's names (snake_case) where the environment allows it.
-/

namespace OSSTicketing

abbrev Uuid := Nat

/-- Bytes are naturals; all SHA-256 arithmetic is mod 2^32. -/
abbrev Bytes := List Nat

def M32 : Nat := 4294967296

def rotr32 (x n : Nat) : Nat := ((x >>> n) ||| (x <<< (32 - n))) % M32

def bigSigma0 (x : Nat) : Nat := (rotr32 x 2) ^^^ (rotr32 x 13) ^^^ (rotr32 x 22)

def bigSigma1 (x : Nat) : Nat := (rotr32 x 6) ^^^ (rotr32 x 11) ^^^ (rotr32 x 25)

def smallSigma0 (x : Nat) : Nat := (rotr32 x 7) ^^^ (rotr32 x 18) ^^^ (x >>> 3)

def smallSigma1 (x : Nat) : Nat := (rotr32 x 17) ^^^ (rotr32 x 19) ^^^ (x >>> 10)

def ch32 (x y z : Nat) : Nat := (x &&& y) ^^^ ((x ^^^ (M32 - 1)) &&& z)

def maj32 (x y z : Nat) : Nat := (x &&& y) ^^^ (x &&& z) ^^^ (y &&& z)

/-- The 64 SHA-256 round constants. -/
def sha256K : List Nat :=
  [1116352408, 1899447441, 3049323471, 3921009573, 961987163, 1508970993,
   2453635748, 2870763221, 3624381080, 310598401, 607225278, 1426881987,
   1925078388, 2162078206, 2614888103, 3248222580, 3835390401, 4022224774,
   264347078, 604807628, 770255983, 1249150122, 1555081692, 1996064986,
   2554220882, 2821834349, 2952996808, 3210313671, 3336571891, 3584528711,
   113926993, 338241895, 666307205, 773529912, 1294757372, 1396182291,
   1695183700, 1986661051, 2177026350, 2456956037, 2730485921, 2820302411,
   3259730800, 3345764771, 3516065817, 3600352804, 4094571909, 275423344,
   430227734, 506948616, 659060556, 883997877, 958139571, 1322822218,
   1537002063, 1747873779, 1955562222, 2024104815, 2227730452, 2361852424,
   2428436474, 2756734187, 3204031479, 3329325298]

structure Hash8 where
  a : Nat
  b : Nat
  c : Nat
  d : Nat
  e : Nat
  f : Nat
  g : Nat
  h : Nat
deriving Repr, DecidableEq

def sha256Init : Hash8 :=
  ⟨1779033703, 3144134277, 1013904242, 2773480762, 1359893119, 2600822924, 528734635, 1541459225⟩

/-- Big-endian bytes of a word, most significant first, `n` bytes. -/
def natToBytesBE (n : Nat) (x : Nat) : Bytes :=
  match n with
  | 0 => []
  | Nat.succ m => ((x >>> (m * 8)) % 256) :: natToBytesBE m x

/-- Sixteen big-endian 32-bit words from a 64-byte block. -/
def bytesToWords : Bytes → List Nat
  | b0 :: b1 :: b2 :: b3 :: rest =>
      (((b0 % 256) <<< 24) + ((b1 % 256) <<< 16) + ((b2 % 256) <<< 8) + (b3 % 256)) :: bytesToWords rest
  | _ => []

/-- Extend the 16-word schedule by `n` more words. -/
def extendSchedule : List Nat → Nat → List Nat
  | w, 0 => w
  | w, Nat.succ n =>
      let t := w.length
      let nw := (smallSigma1 (w.getD (t - 2) 0) + w.getD (t - 7) 0
                 + smallSigma0 (w.getD (t - 15) 0) + w.getD (t - 16) 0) % M32
      extendSchedule (w ++ [nw]) n

def sha256Round (st : Hash8) (kw : Nat × Nat) : Hash8 :=
  let t1 := (st.h + bigSigma1 st.e + ch32 st.e st.f st.g + kw.1 + kw.2) % M32
  let t2 := (bigSigma0 st.a + maj32 st.a st.b st.c) % M32
  ⟨(t1 + t2) % M32, st.a, st.b, st.c, (st.d + t1) % M32, st.e, st.f, st.g⟩

def sha256Compress (h : Hash8) (block : Bytes) : Hash8 :=
  let w := extendSchedule (bytesToWords block) 48
  let st := (w.zip sha256K).foldl sha256Round h
  ⟨(h.a + st.a) % M32, (h.b + st.b) % M32, (h.c + st.c) % M32, (h.d + st.d) % M32,
   (h.e + st.e) % M32, (h.f + st.f) % M32, (h.g + st.g) % M32, (h.h + st.h) % M32⟩

/-- SHA-256 padding: 0x80, zeros to 56 mod 64, then the 8-byte bit length. -/
def sha256Pad (msg : Bytes) : Bytes :=
  let len := msg.length
  let zeros := (120 - ((len + 1) % 64)) % 64
  msg ++ [0x80] ++ List.replicate zeros 0 ++ natToBytesBE 8 (len * 8)

def chunks64 (l : Bytes) : List Bytes :=
  if h : l = [] then [] else (l.take 64) :: chunks64 (l.drop 64)
termination_by l.length
decreasing_by
  simp only [List.length_drop]
  have : 0 < l.length := List.length_pos.mpr h
  omega

def digestBytes (h : Hash8) : Bytes :=
  natToBytesBE 4 h.a ++ natToBytesBE 4 h.b ++ natToBytesBE 4 h.c ++ natToBytesBE 4 h.d ++
  natToBytesBE 4 h.e ++ natToBytesBE 4 h.f ++ natToBytesBE 4 h.g ++ natToBytesBE 4 h.h

/-- SHA-256 of a byte string, as its 32-byte digest. -/
def sha256 (msg : Bytes) : Bytes :=
  digestBytes ((chunks64 (sha256Pad msg)).foldl sha256Compress sha256Init)

def hexDigit (n : Nat) : Char := if n < 10 then Char.ofNat (48 + n) else Char.ofNat (87 + n)

/-- Lowercase hex string of a byte string (Python bytes.hex()). -/
def bytesHex (b : Bytes) : String :=
  String.mk (b.foldr (fun x acc => hexDigit ((x % 256) / 16) :: hexDigit (x % 16) :: acc) [])

/-- Python hashlib.sha256(data).hexdigest() (dedupe.sha256_hex). -/
def sha256_hex (data : Bytes) : String := bytesHex (sha256 data)

/-- UTF-8 bytes of a string (Python str.encode). -/
def utf8Bytes (s : String) : Bytes := s.toUTF8.toList.map (fun b => b.toNat)

/-! ## Parsed email (services/ingest/types.py) -/

/-- A parsed Date header, already converted to UTC by the parser. -/
structure UtcDateTime where
  year : Nat
  month : Nat
  day : Nat
  hour : Nat
  minute : Nat
  second : Nat
deriving Repr, DecidableEq

def pad2 (n : Nat) : String := if n < 10 then "0" ++ toString n else toString n

def pad4 (n : Nat) : String :=
  if n < 10 then "000" ++ toString n
  else if n < 100 then "00" ++ toString n
  else if n < 1000 then "0" ++ toString n
  else toString n

/-- Python datetime.date().isoformat(): the UTC calendar day as YYYY-MM-DD. -/
def dateIso (d : UtcDateTime) : String :=
  pad4 d.year ++ "-" ++ pad2 d.month ++ "-" ++ pad2 d.day

/-- Python datetime.isoformat() of a UTC datetime. -/
def dateTimeIso (d : UtcDateTime) : String :=
  dateIso d ++ "T" ++ pad2 d.hour ++ ":" ++ pad2 d.minute ++ ":" ++ pad2 d.second ++ "+00:00"

structure ParsedAttachment where
  filename : Option String
  content_type : Option String
  payload : Bytes
  is_inline : Bool
  content_id : Option String
deriving Repr, DecidableEq

/-- services/ingest/types.py ParsedEmail; headers_json is the case-preserving
multimap of all headers (list of values per name). -/
structure ParsedEmail where
  rfc_message_id : Option String
  date : Option UtcDateTime
  subject : Option String
  subject_norm : Option String
  from_email : Option String
  from_name : Option String
  reply_to_emails : List String
  to_emails : List String
  cc_emails : List String
  headers_json : List (String × List String)
  body_text : Option String
  body_html_sanitized : Option String
  in_reply_to : Option String
  references : List String
  attachments : List ParsedAttachment
deriving Repr, DecidableEq

/-! ## Fingerprint and signature (services/ingest/dedupe.py) -/

/-- JSON string escaping as orjson emits it (quote, backslash, control chars). -/
def jsonEscChar (c : Char) : String :=
  if c = '"' then "\\\""
  else if c = '\\' then "\\\\"
  else if c = Char.ofNat 10 then "\\n"
  else if c = Char.ofNat 13 then "\\r"
  else if c = Char.ofNat 9 then "\\t"
  else if c.toNat < 32 then
    "\\u00" ++ String.mk [hexDigit (c.toNat / 16), hexDigit (c.toNat % 16)]
  else String.mk [c]

def jsonStr (s : String) : String :=
  "\"" ++ String.join (s.toList.map jsonEscChar) ++ "\""

def jsonOptStr : Option String → String
  | none => "null"
  | some s => jsonStr s

def jsonStrList (l : List String) : String :=
  "[" ++ String.intercalate "," (l.map jsonStr) ++ "]"

/-- The canonical-JSON value hashed by compute_fingerprint_v1: orjson with
OPT_SORT_KEYS puts the six keys in this order. -/
structure FingerprintPayload where
  from_email : Option String
  subject_norm : Option String
  date : Option String
  body_hash_pfx : String
  attachment_count : Nat
  attachment_sha_prefixes : List String
deriving Repr, DecidableEq

def fingerprintPayloadJson (p : FingerprintPayload) : String :=
  "\x7b\"attachment_count\":" ++ toString p.attachment_count ++
  ",\"attachment_sha_prefixes\":" ++ jsonStrList p.attachment_sha_prefixes ++
  ",\"body_hash_prefix\":" ++ jsonStr p.body_hash_pfx ++
  ",\"date\":" ++ jsonOptStr p.date ++
  ",\"from\":" ++ jsonOptStr p.from_email ++
  ",\"subject_norm\":" ++ jsonOptStr p.subject_norm ++ "\x7d"

/-- dedupe.compute_attachment_sha256. -/
def compute_attachment_sha256 (a : ParsedAttachment) : Bytes := sha256 a.payload

/-- Python whitespace (str.strip / str.split defaults): space, \\t, \\n, \\r,
\\x0b, \\x0c. -/
def pyIsSpace (c : Char) : Bool :=
  c.toNat = 32 || c.toNat = 9 || c.toNat = 10 || c.toNat = 13 || c.toNat = 11 || c.toNat = 12

/-- Python str.strip(): drop leading and trailing whitespace. -/
def pyStrip (s : String) : String :=
  String.mk (((s.data.dropWhile pyIsSpace).reverse.dropWhile pyIsSpace).reverse)

/-- ASCII lowering of one char (model of Python str.lower on the ASCII inputs
the pipeline handles). -/
def lowerChar (c : Char) : Char :=
  if 65 ≤ c.toNat ∧ c.toNat ≤ 90 then Char.ofNat (c.toNat + 32) else c

/-- Python str.lower(). -/
def pyLower (s : String) : String := String.mk (s.data.map lowerChar)

/-- Python s[:n]. -/
def pyTake (s : String) (n : Nat) : String := String.mk (s.data.take n)

/-- Python str.split(sep) for a one-char separator. -/
def splitOnChar (sep : Char) (l : List Char) : List (List Char) :=
  let r := l.foldr (fun c acc =>
    if c = sep then ([], acc.1 :: acc.2) else (c :: acc.1, acc.2)) ([], [])
  r.1 :: r.2

/-- dedupe.compute_fingerprint_v1: SHA-256 over the canonical JSON of
{from, subject_norm, date (UTC day), body_hash_prefix, attachment_count,
attachment_sha_prefixes (up to 10)}. -/
def compute_fingerprint_v1 (parsed : ParsedEmail) (attachment_sha256 : List Bytes) : Bytes :=
  let body_text := pyStrip (parsed.body_text.getD "")
  let body_hash := sha256_hex (utf8Bytes body_text)
  let payload : FingerprintPayload :=
    { from_email := parsed.from_email
      subject_norm := parsed.subject_norm
      date := parsed.date.map dateIso
      body_hash_pfx := pyTake body_hash 16
      attachment_count := attachment_sha256.length
      attachment_sha_prefixes := (attachment_sha256.take 10).map (fun a => pyTake (bytesHex a) 16) }
  sha256 (utf8Bytes (fingerprintPayloadJson payload))

/-- The signature payload keys, in orjson OPT_SORT_KEYS order. -/
def signaturePayloadJson (rfc : Option String) (date : Option String) (fromEmail : Option String)
    (toL ccL replyTo : List String) (subjectNorm : Option String) (bodyText : String)
    (attachmentSha : List String) : String :=
  "\x7b\"attachment_sha\":" ++ jsonStrList attachmentSha ++
  ",\"body_text\":" ++ jsonStr bodyText ++
  ",\"cc\":" ++ jsonStrList ccL ++
  ",\"date\":" ++ jsonOptStr date ++
  ",\"from\":" ++ jsonOptStr fromEmail ++
  ",\"reply_to\":" ++ jsonStrList replyTo ++
  ",\"rfc_message_id\":" ++ jsonOptStr rfc ++
  ",\"subject_norm\":" ++ jsonOptStr subjectNorm ++
  ",\"to\":" ++ jsonStrList toL ++ "\x7d"

def sortStrings (l : List String) : List String := l.mergeSort (fun a b => a ≤ b)

/-- dedupe.compute_signature_v1. -/
def compute_signature_v1 (parsed : ParsedEmail) (attachment_sha256 : List Bytes) : Bytes :=
  let body_text := pyStrip (parsed.body_text.getD "")
  sha256 (utf8Bytes (signaturePayloadJson parsed.rfc_message_id
    (parsed.date.map dateTimeIso) parsed.from_email
    (sortStrings parsed.to_emails) (sortStrings parsed.cc_emails)
    (sortStrings parsed.reply_to_emails) parsed.subject_norm body_text
    (attachment_sha256.map bytesHex)))

/-- The fingerprint of a parsed email as occurrence_parse computes it:
per-attachment SHA-256 list fed into compute_fingerprint_v1. -/
def fingerprintOfEmail (parsed : ParsedEmail) : Bytes :=
  compute_fingerprint_v1 parsed (parsed.attachments.map compute_attachment_sha256)

/-! ## Recipient resolver (services/ingest/recipient.py) -/

inductive RoutingRecipientSource where
  | workspace_header
  | delivered_to
  | x_original_to
  | to_cc_scan
  | unknown
deriving Repr, DecidableEq

inductive RoutingConfidence where
  | high
  | medium
  | low
deriving Repr, DecidableEq

/-- Model of Python email.utils.getaddresses for one raw header value: split an
address list on commas and take the addr-spec of each mailbox (the part
between angle brackets when present, the whole entry otherwise). -/
def getaddressesAddrs (raw : String) : List String :=
  (splitOnChar ',' raw.data).map (fun part =>
    if part.contains '<' then
      String.mk ((splitOnChar '>' ((splitOnChar '<' part).getD 1 [])).headD [])
    else String.mk part)

/-- recipient._unique_preserving_order. -/
def _unique_preserving_order (values : List String) : List String :=
  values.foldl (fun acc v => if acc.contains v then acc else acc ++ [v]) []

/-- recipient._header_candidates: values of the case-insensitively matching
header name, parsed as address lists, lowercased, empties dropped, duplicates
removed preserving order. -/
def _header_candidates (headers_json : List (String × List String))
    (header_name_lc : String) : List String :=
  let raw_values := ((headers_json.filter (fun kv => pyLower kv.1 = header_name_lc)).map
    Prod.snd).flatten
  let emails := (raw_values.map getaddressesAddrs).flatten.filterMap (fun addr =>
    let candidate := pyLower (pyStrip addr)
    if candidate = "" then none else some candidate)
  _unique_preserving_order emails

structure RecipientEvidence where
  selected_from : Option String
  selected_value : Option String
  x_gm_original_to_candidates : List String
  delivered_to_candidates : List String
  x_original_to_candidates : List String
  to_candidates : List String
  cc_candidates : List String
deriving Repr, DecidableEq

structure RecipientResolution where
  recipient : Option String
  source : RoutingRecipientSource
  confidence : RoutingConfidence
  evidence : RecipientEvidence
deriving Repr, DecidableEq

/-- recipient.resolve_original_recipient. -/
def resolve_original_recipient (headers_json : List (String × List String))
    (to_emails cc_emails : List String) : RecipientResolution :=
  let x_gm_values := _header_candidates headers_json "x-gm-original-to"
  let delivered_values := _header_candidates headers_json "delivered-to"
  let x_original_values := _header_candidates headers_json "x-original-to"
  let chosen : Option String × Option String × RoutingRecipientSource × RoutingConfidence :=
    match x_gm_values with
    | v :: _ => (some v, some "X-Gm-Original-To", .workspace_header, .high)
    | [] =>
      match delivered_values with
      | v :: _ => (some v, some "Delivered-To", .delivered_to, .medium)
      | [] =>
        match x_original_values with
        | v :: _ => (some v, some "X-Original-To", .x_original_to, .medium)
        | [] =>
          if to_emails ≠ [] then
            let s := pyLower (pyStrip (to_emails.headD ""))
            if s = "" then (none, none, .unknown, .low)
            else (some s, some "to", .to_cc_scan, .low)
          else if cc_emails ≠ [] then
            let s := pyLower (pyStrip (cc_emails.headD ""))
            if s = "" then (none, none, .unknown, .low)
            else (some s, some "cc", .to_cc_scan, .low)
          else (none, none, .unknown, .low)
  { recipient := chosen.1
    source := chosen.2.2.1
    confidence := chosen.2.2.2
    evidence :=
      { selected_from := chosen.2.1
        selected_value := chosen.1
        x_gm_original_to_candidates := x_gm_values
        delivered_to_candidates := delivered_values
        x_original_to_candidates := x_original_values
        to_candidates := to_emails.filterMap (fun e =>
          if pyStrip e = "" then none else some (pyLower (pyStrip e)))
        cc_candidates := cc_emails.filterMap (fun e =>
          if pyStrip e = "" then none else some (pyLower (pyStrip e))) } }

/-! ## Job queue and worker runtime (worker/queue.py, worker/runner.py) -/

inductive JobStatus where
  | queued
  | running
  | succeeded
  | failed
  | cancelled
deriving Repr, DecidableEq

inductive JobType where
  | mailbox_backfill
  | mailbox_history_sync
  | mailbox_watch_renew
  | occurrence_fetch_raw
  | occurrence_parse
  | occurrence_stitch
  | ticket_apply_routing
  | outbound_send
deriving Repr, DecidableEq

def JobType.value : JobType → String
  | .mailbox_backfill => "mailbox_backfill"
  | .mailbox_history_sync => "mailbox_history_sync"
  | .mailbox_watch_renew => "mailbox_watch_renew"
  | .occurrence_fetch_raw => "occurrence_fetch_raw"
  | .occurrence_parse => "occurrence_parse"
  | .occurrence_stitch => "occurrence_stitch"
  | .ticket_apply_routing => "ticket_apply_routing"
  | .outbound_send => "outbound_send"

/-- One bg_jobs row; payload is the job's JSON object as key/value pairs. -/
structure BgJobRow where
  id : Uuid
  organization_id : Option Uuid
  mailbox_id : Option Uuid
  jobType : JobType
  status : JobStatus
  run_at : Rat
  attempts : Nat
  max_attempts : Nat
  last_error : Option String
  dedupe_key : Option String
  payload : List (String × String)
deriving Repr, DecidableEq

/-- runner.WorkerConfig (defaults from the dataclass). -/
structure WorkerConfig where
  poll_interval_seconds : Rat
  history_poll_interval_seconds : Rat
  mailbox_sync_circuit_breaker_attempts : Nat
  mailbox_sync_pause_seconds : Rat
deriving Repr, DecidableEq

def defaultWorkerConfig : WorkerConfig := ⟨1/2, 30, 5, 900⟩

/-- One mailboxes row, restricted to the sync-control columns. -/
structure MailboxRow where
  id : Uuid
  organization_id : Uuid
  is_enabled : Bool
  ingestion_paused_until : Option Rat
  ingestion_pause_reason : Option String
  gmail_history_id : Option Nat
  last_full_sync_at : Option Rat
  last_incremental_sync_at : Option Rat
  last_sync_error : Option String
deriving Repr, DecidableEq

/-- runner._pause_mailbox_ingestion. -/
def _pause_mailbox_ingestion (config : WorkerConfig) (now : Rat) (mailboxes : List MailboxRow)
    (mailbox_id : Uuid) (job_type : JobType) (attempts : Nat) (error : String) :
    List MailboxRow :=
  let pause_until := now + max 1 config.mailbox_sync_pause_seconds
  let reason := "Auto-paused by sync circuit breaker after " ++ toString attempts ++
    " failed " ++ job_type.value ++ " attempts"
  mailboxes.map (fun mb =>
    if mb.id = mailbox_id then
      { mb with
        ingestion_paused_until := some pause_until
        ingestion_pause_reason := some reason
        last_sync_error := some error }
    else mb)

/-- runner._mark_failed backoff: min(60.0, 0.5 * 2 ** min(attempts, 8)). -/
def backoffSeconds (attempts : Nat) : Rat := min 60 ((1 / 2) * 2 ^ (min attempts 8))

structure MarkFailedResult where
  job : BgJobRow
  mailboxes : List MailboxRow
deriving Repr, DecidableEq

/-- runner._mark_failed: increment attempts; circuit-break retryable mailbox
sync jobs at the threshold; fail on permanent or exhausted attempts; otherwise
requeue with exponential backoff. -/
def _mark_failed (config : WorkerConfig) (now : Rat) (job : BgJobRow) (job_type : JobType)
    (mailbox_id : Option Uuid) (mailboxes : List MailboxRow) (error : String)
    (permanent : Bool) : MarkFailedResult :=
  let attempts := job.attempts + 1
  let terminalOrRetry : MarkFailedResult :=
    if permanent = true ∨ attempts ≥ job.max_attempts then
      { job := { job with status := .failed, attempts := attempts, last_error := some error }
        mailboxes := mailboxes }
    else
      let requeued : BgJobRow :=
        { job with status := .queued, attempts := attempts, last_error := some error,
                   run_at := now + backoffSeconds attempts }
      { job := requeued, mailboxes := mailboxes }
  match mailbox_id with
  | some mid =>
      if permanent = false ∧
          (job_type = .mailbox_backfill ∨ job_type = .mailbox_history_sync) ∧
          attempts ≥ max 1 config.mailbox_sync_circuit_breaker_attempts then
        { job := { job with status := .failed, attempts := attempts, last_error := some error }
          mailboxes := _pause_mailbox_ingestion config now mailboxes mid job_type attempts error }
      else terminalOrRetry
  | none => terminalOrRetry

/-- A live duplicate for the partial unique index on (tenant, type, dedupe_key)
where dedupe_key IS NOT NULL AND status IN (queued, running). -/
def liveDuplicate (jobs : List BgJobRow) (organization_id : Option Uuid)
    (job_type : JobType) (k : String) : Bool :=
  jobs.any (fun j =>
    j.organization_id == organization_id && j.jobType == job_type &&
    j.dedupe_key == some k && (j.status == .queued || j.status == .running))

structure BgDb where
  jobs : List BgJobRow
  next_job_id : Uuid
deriving Repr, DecidableEq

/-- queue.enqueue_job: single INSERT ON CONFLICT DO NOTHING against the partial
unique index; returns the new id, or none when a live duplicate exists. -/
def enqueue_job (db : BgDb) (now : Rat) (job_type : JobType)
    (organization_id mailbox_id : Option Uuid) (payload : List (String × String))
    (dedupe_key : Option String) (run_at : Option Rat) : Option Uuid × BgDb :=
  let doInsert : Option Uuid × BgDb :=
    (some db.next_job_id,
     { jobs := db.jobs ++ [{ id := db.next_job_id, organization_id := organization_id
                             mailbox_id := mailbox_id, jobType := job_type, status := .queued
                             run_at := run_at.getD now, attempts := 0, max_attempts := 25
                             last_error := none, dedupe_key := dedupe_key, payload := payload }]
       next_job_id := db.next_job_id + 1 })
  match dedupe_key with
  | some k => if liveDuplicate db.jobs organization_id job_type k then (none, db) else doInsert
  | none => doInsert

/-! ## Canonical message layer (worker/jobs/occurrence_parse.py) -/

/-- One messages row. The schema declares collision_group_id but the in-tree
upsert never assigns it. -/
structure MessageRow where
  id : Uuid
  organization_id : Uuid
  direction : String
  oss_message_id : Option Uuid
  rfc_message_id : Option String
  fingerprint_v1 : Bytes
  signature_v1 : Bytes
  collision_group_id : Option Uuid
deriving Repr, DecidableEq

structure MessageOssIdRow where
  organization_id : Uuid
  oss_message_id : Uuid
  message_id : Uuid
deriving Repr, DecidableEq

structure MessageRfcIdRow where
  organization_id : Uuid
  rfc_message_id : String
  signature_v1 : Bytes
  message_id : Uuid
deriving Repr, DecidableEq

structure MessageFingerprintRow where
  organization_id : Uuid
  fingerprint_version : Nat
  fingerprint : Bytes
  signature_v1 : Bytes
  message_id : Uuid
deriving Repr, DecidableEq

structure CanonicalDb where
  messages : List MessageRow
  message_oss_ids : List MessageOssIdRow
  message_rfc_ids : List MessageRfcIdRow
  message_fingerprints : List MessageFingerprintRow
  next_message_id : Uuid
deriving Repr, DecidableEq

/-- SELECT message_id FROM message_oss_ids WHERE organization_id AND oss_message_id. -/
def lookupOssId (rows : List MessageOssIdRow) (org : Uuid) (oss : Uuid) : Option Uuid :=
  (rows.find? (fun r => r.organization_id == org && r.oss_message_id == oss)).map
    (fun r => r.message_id)

/-- SELECT message_id FROM message_fingerprints WHERE organization_id AND
fingerprint_version = 1 AND fingerprint AND signature_v1. -/
def lookupFingerprint (rows : List MessageFingerprintRow) (org : Uuid)
    (fp sig : Bytes) : Option Uuid :=
  (rows.find? (fun r => r.organization_id == org && r.fingerprint_version == 1 &&
    r.fingerprint == fp && r.signature_v1 == sig)).map (fun r => r.message_id)

/-- The oss_message_id branch of the upsert: only consulted when the argument
is set. -/
def ossHit (rows : List MessageOssIdRow) (org : Uuid) (oss_message_id : Option Uuid) :
    Option Uuid :=
  match oss_message_id with
  | some oss => lookupOssId rows org oss
  | none => none

/-- occurrence_parse._upsert_canonical_message: resolve by oss id, then by
(fingerprint, signature); otherwise insert a new messages row and
conflict-ignoring rows into the three lookup tables. Mirrors the source:
collision_group_id is never written. -/
def _upsert_canonical_message (db : CanonicalDb) (organization_id : Uuid) (direction : String)
    (oss_message_id : Option Uuid) (rfc_message_id : Option String)
    (fingerprint_v1 signature_v1 : Bytes) : Uuid × CanonicalDb :=
  match ossHit db.message_oss_ids organization_id oss_message_id with
  | some m => (m, db)
  | none =>
    match lookupFingerprint db.message_fingerprints organization_id fingerprint_v1 signature_v1 with
    | some m => (m, db)
    | none =>
      let message_id := db.next_message_id
      let messages := db.messages ++
        [{ id := message_id, organization_id := organization_id, direction := direction,
           oss_message_id := oss_message_id, rfc_message_id := rfc_message_id,
           fingerprint_v1 := fingerprint_v1, signature_v1 := signature_v1,
           collision_group_id := none }]
      let fps :=
        match lookupFingerprint db.message_fingerprints organization_id fingerprint_v1
            signature_v1 with
        | some _ => db.message_fingerprints
        | none => db.message_fingerprints ++
            [{ organization_id := organization_id, fingerprint_version := 1,
               fingerprint := fingerprint_v1, signature_v1 := signature_v1,
               message_id := message_id }]
      let rfcs :=
        match rfc_message_id with
        | some rfc =>
          if rfc = "" then db.message_rfc_ids
          else if db.message_rfc_ids.any (fun r => r.organization_id == organization_id &&
              r.rfc_message_id == rfc && r.signature_v1 == signature_v1) then
            db.message_rfc_ids
          else db.message_rfc_ids ++
            [{ organization_id := organization_id, rfc_message_id := rfc,
               signature_v1 := signature_v1, message_id := message_id }]
        | none => db.message_rfc_ids
      let osss :=
        match oss_message_id with
        | some oss =>
          if db.message_oss_ids.any (fun r => r.organization_id == organization_id &&
              r.oss_message_id == oss) then
            db.message_oss_ids
          else db.message_oss_ids ++
            [{ organization_id := organization_id, oss_message_id := oss,
               message_id := message_id }]
        | none => db.message_oss_ids
      (message_id,
       { messages := messages, message_oss_ids := osss, message_rfc_ids := rfcs,
         message_fingerprints := fps, next_message_id := db.next_message_id + 1 })

/-! ## Message content versioning (occurrence_parse._insert_message_content) -/

/-- One message_contents row (the columns the pipeline reads back). -/
structure MessageContentRow where
  organization_id : Uuid
  message_id : Uuid
  content_version : Nat
  parser_version : Nat
  parsed_at : Rat
  date_header : Option UtcDateTime
  subject : Option String
  subject_norm : Option String
  from_email : Option String
  from_name : Option String
  reply_to_emails : List String
  to_emails : List String
  cc_emails : List String
  headers_json : List (String × List String)
  body_text : Option String
  body_html_sanitized : Option String
  has_attachments : Bool
  attachment_count : Nat
  snippet : Option String
deriving Repr, DecidableEq

structure ThreadRefRow where
  organization_id : Uuid
  message_id : Uuid
  ref_type : String
  ref_rfc_message_id : String
deriving Repr, DecidableEq

/-- COALESCE(MAX(content_version), 0) over the (tenant, message) rows. -/
def maxContentVersion (contents : List MessageContentRow) (org msg : Uuid) : Nat :=
  (contents.filter (fun r => r.organization_id == org && r.message_id == msg)).foldl
    (fun acc r => max acc r.content_version) 0

/-- The content_version the source computes: `max_v + 1 if max_v == 0 else max_v`. -/
def sourceContentVersion (max_v : Nat) : Nat := if max_v = 0 then max_v + 1 else max_v

/-- Python `(x or y)[:280] or None` for the snippet. -/
def snippetOf (body_text subject : Option String) : Option String :=
  let base := match body_text with
    | some b => if b = "" then (subject.getD "") else b
    | none => subject.getD ""
  let s := pyTake base 280
  if s = "" then none else some s

structure ContentTables where
  message_contents : List MessageContentRow
  message_thread_refs : List ThreadRefRow
deriving Repr, DecidableEq

/-- occurrence_parse._insert_message_content: insert a message_contents row at
the computed version with ON CONFLICT DO NOTHING on (tenant, message, version),
then conflict-ignored thread refs for in_reply_to and each references entry. -/
def _insert_message_content (tables : ContentTables) (now : Rat) (organization_id message_id : Uuid)
    (parsed : ParsedEmail) : ContentTables :=
  let max_v := maxContentVersion tables.message_contents organization_id message_id
  let content_version := sourceContentVersion max_v
  let newRow : MessageContentRow :=
    { organization_id := organization_id, message_id := message_id,
      content_version := content_version, parser_version := 1, parsed_at := now,
      date_header := parsed.date, subject := parsed.subject, subject_norm := parsed.subject_norm,
      from_email := parsed.from_email, from_name := parsed.from_name,
      reply_to_emails := parsed.reply_to_emails, to_emails := parsed.to_emails,
      cc_emails := parsed.cc_emails, headers_json := parsed.headers_json,
      body_text := parsed.body_text, body_html_sanitized := parsed.body_html_sanitized,
      has_attachments := !parsed.attachments.isEmpty,
      attachment_count := parsed.attachments.length,
      snippet := snippetOf parsed.body_text parsed.subject }
  let contents :=
    if tables.message_contents.any (fun r => r.organization_id == organization_id &&
        r.message_id == message_id && r.content_version == content_version) then
      tables.message_contents
    else tables.message_contents ++ [newRow]
  let insertRef (refs : List ThreadRefRow) (ref_type ref : String) : List ThreadRefRow :=
    if refs.any (fun r => r.organization_id == organization_id && r.message_id == message_id &&
        r.ref_type == ref_type && r.ref_rfc_message_id == ref) then refs
    else refs ++ [{ organization_id := organization_id, message_id := message_id,
                    ref_type := ref_type, ref_rfc_message_id := ref }]
  let refs0 :=
    match parsed.in_reply_to with
    | some irt => if irt = "" then tables.message_thread_refs
                  else insertRef tables.message_thread_refs "in_reply_to" irt
    | none => tables.message_thread_refs
  let refs := parsed.references.foldl (fun acc ref => insertRef acc "references" ref) refs0
  { message_contents := contents, message_thread_refs := refs }

/-! ## fnmatch shell glob (Python fnmatch.fnmatch on POSIX; callers lowercase
both sides first, so matching is case-sensitive here) -/

/-- Scan a character class body up to the closing bracket; none when unclosed. -/
def scanClass (acc : List Char) : List Char → Option (List Char × List Char)
  | [] => none
  | ']' :: rest => some (acc.reverse, rest)
  | c :: rest => scanClass (c :: acc) rest

/-- Parse the chars after '[': (negated, members, rest after ']'). A leading
'!' negates; a leading ']' is a literal member. -/
def parseCharClass (ps : List Char) : Option (Bool × List Char × List Char) :=
  match ps with
  | '!' :: ']' :: rest => (scanClass [']'] rest).map (fun p => (true, p.1, p.2))
  | '!' :: rest => (scanClass [] rest).map (fun p => (true, p.1, p.2))
  | ']' :: rest => (scanClass [']'] rest).map (fun p => (false, p.1, p.2))
  | rest => (scanClass [] rest).map (fun p => (false, p.1, p.2))

/-- Membership in a character class with `a-b` ranges. -/
def classRangesMatch : List Char → Char → Bool
  | a :: '-' :: b :: rest, c =>
      (a.toNat ≤ c.toNat && c.toNat ≤ b.toNat) || classRangesMatch rest c
  | a :: rest, c => a == c || classRangesMatch rest c
  | [], _ => false

/-- Glob matching with explicit fuel; every recursive call shrinks the pattern
or the subject, so fuel `pattern.length + subject.length + 1` bounds the depth. -/
def globMatchFuel : Nat → List Char → List Char → Bool
  | 0, _, _ => false
  | _ + 1, [], s => s.isEmpty
  | fuel + 1, '*' :: ps, s =>
      globMatchFuel fuel ps s ||
      (match s with
       | [] => false
       | _ :: s2 => globMatchFuel fuel ('*' :: ps) s2)
  | fuel + 1, '?' :: ps, s =>
      match s with
      | [] => false
      | _ :: s2 => globMatchFuel fuel ps s2
  | fuel + 1, '[' :: ps, s =>
      match parseCharClass ps with
      | some (neg, cs, rest) =>
          match s with
          | [] => false
          | c :: s2 =>
              (if neg then !(classRangesMatch cs c) else classRangesMatch cs c) &&
                globMatchFuel fuel rest s2
      | none =>
          match s with
          | [] => false
          | c :: s2 => (c == '[') && globMatchFuel fuel ps s2
  | fuel + 1, p :: ps, s =>
      match s with
      | [] => false
      | c :: s2 => (p == c) && globMatchFuel fuel ps s2

/-- Python fnmatch.fnmatch(name, pattern). -/
def fnmatch (name pattern : String) : Bool :=
  globMatchFuel (pattern.length + name.length + 1) pattern.toList name.toList

/-! ## Typed UUID headers (dedupe.extract_uuid_header) -/

def hexVal (c : Char) : Option Nat :=
  if 48 ≤ c.toNat ∧ c.toNat ≤ 57 then some (c.toNat - 48)
  else if 97 ≤ c.toNat ∧ c.toNat ≤ 102 then some (c.toNat - 87)
  else if 65 ≤ c.toNat ∧ c.toNat ≤ 70 then some (c.toNat - 55)
  else none

/-- Model of Python uuid.UUID(str): 32 hex digits, hyphens ignored, as a Nat. -/
def parseUuid (s : String) : Option Uuid :=
  let cs := s.toList.filter (fun c => c ≠ '-')
  if cs.length = 32 then
    cs.foldl (fun acc c => acc.bind (fun a => (hexVal c).map (fun v => a * 16 + v))) (some 0)
  else none

/-- Python dict.get on the case-preserving header multimap. -/
def headersGet (headers : List (String × List String)) (name : String) : Option (List String) :=
  (headers.find? (fun kv => kv.1 == name)).map Prod.snd

/-- `headers_json.get(name)` coerced by Python truthiness: a missing key and an
empty value list are both falsy. -/
def headersGetTruthy (headers : List (String × List String)) (name : String) : List String :=
  match headersGet headers name with
  | some (v :: vs) => v :: vs
  | _ => []

/-- dedupe.extract_uuid_header: exact-name lookup, then lowercased name; first
value, stripped; parsed as a UUID or none. -/
def extract_uuid_header (headers_json : List (String × List String))
    (header_name : String) : Option Uuid :=
  let values :=
    match headersGetTruthy headers_json header_name with
    | [] => headersGetTruthy headers_json (pyLower header_name)
    | v :: vs => v :: vs
  match values with
  | [] => none
  | v :: _ =>
    let raw := pyStrip v
    if raw = "" then none else parseUuid raw

/-! ## Pipeline tables (models/tickets.py, models/mail.py; the columns the
stitch and routing handlers touch) -/

structure OccurrenceRow where
  id : Uuid
  organization_id : Uuid
  mailbox_id : Uuid
  state : String
  message_id : Option Uuid
  ticket_id : Option Uuid
  stitched_at : Option Rat
  stitch_error : Option String
  routed_at : Option Rat
  route_error : Option String
  original_recipient : Option String
deriving Repr, DecidableEq

structure TicketRow where
  id : Uuid
  organization_id : Uuid
  ticket_code : String
  status : String
  priority : String
  subject : Option String
  subject_norm : Option String
  requester_email : Option String
  requester_name : Option String
  first_message_at : Option UtcDateTime
  last_message_at : Option UtcDateTime
  closed_at : Option Rat
  assignee_user_id : Option Uuid
  assignee_queue_id : Option Uuid
  stitch_reason : Option String
  stitch_confidence : Option String
deriving Repr, DecidableEq

structure TicketMessageRow where
  organization_id : Uuid
  ticket_id : Uuid
  message_id : Uuid
  stitch_reason : String
  stitch_confidence : String
deriving Repr, DecidableEq

structure TicketSnapshot where
  status : String
  assignee_user_id : Option Uuid
  assignee_queue_id : Option Uuid
deriving Repr, DecidableEq

/-- The JSONB event_data payloads the routing job writes. -/
inductive TicketEventData where
  | auto_spam (occurrence_id : Uuid) (recipient : String)
  | routing_applied (occurrence_id : Uuid) (rule_id : Uuid)
      (before : TicketSnapshot) (after : Option TicketSnapshot)
deriving Repr, DecidableEq

structure TicketEventRow where
  organization_id : Uuid
  ticket_id : Uuid
  event_type : String
  event_data : TicketEventData
deriving Repr, DecidableEq

structure AllowlistRow where
  organization_id : Uuid
  pattern : Option String
  is_enabled : Bool
deriving Repr, DecidableEq

structure RoutingRuleRow where
  id : Uuid
  organization_id : Uuid
  is_enabled : Bool
  priority : Int
  match_recipient_pattern : Option String
  match_sender_domain_pattern : Option String
  match_sender_email_pattern : Option String
  match_direction : Option String
  action_assign_queue_id : Option Uuid
  action_assign_user_id : Option Uuid
  action_set_status : Option String
  action_drop : Bool
  action_auto_close : Bool
deriving Repr, DecidableEq

structure PipelineDb where
  occurrences : List OccurrenceRow
  messages : List MessageRow
  message_contents : List MessageContentRow
  message_thread_refs : List ThreadRefRow
  message_rfc_ids : List MessageRfcIdRow
  ticket_messages : List TicketMessageRow
  tickets : List TicketRow
  ticket_events : List TicketEventRow
  recipient_allowlist : List AllowlistRow
  routing_rules : List RoutingRuleRow
  jobs : List BgJobRow
  next_job_id : Uuid
  next_ticket_id : Uuid
  ticket_code_supply : List String
deriving Repr, DecidableEq

def updateOccurrence (occs : List OccurrenceRow) (id : Uuid)
    (f : OccurrenceRow → OccurrenceRow) : List OccurrenceRow :=
  occs.map (fun o => if o.id == id then f o else o)

/-! ## Stitching (worker/jobs/occurrence_stitch.py) -/

/-- The token char class of `^ticket\+([a-z0-9\-]+)@`. -/
def isTokenChar (c : Char) : Bool :=
  (97 ≤ c.toNat && c.toNat ≤ 122) || (48 ≤ c.toNat && c.toNat ≤ 57) || c == '-'

/-- Match of occurrence_stitch._REPLY_TO_TOKEN_RE against a lowercased email:
the captured ticket code, when the email is `ticket+<code>@...`. -/
def replyToToken (email : String) : Option String :=
  if "ticket+".data.isPrefixOf email.data then
    let rest := email.data.drop 7
    let code := rest.takeWhile isTokenChar
    match code, rest.dropWhile isTokenChar with
    | [], _ => none
    | _ :: _, '@' :: _ => some (String.mk code)
    | _, _ => none
  else none

/-- occurrence_stitch._try_reply_to_token. -/
def _try_reply_to_token (tickets : List TicketRow) (org : Uuid) :
    List String → Option Uuid
  | [] => none
  | email :: rest =>
    match replyToToken (pyLower email) with
    | none => _try_reply_to_token tickets org rest
    | some code =>
      match tickets.find? (fun t => t.organization_id == org && t.ticket_code == code) with
      | some t => some t.id
      | none => _try_reply_to_token tickets org rest

/-- The thread refs of a message in SQL order: in_reply_to rows first, then the
rest, each in id (insertion) order. -/
def orderedThreadRefs (refs : List ThreadRefRow) (org msg : Uuid) : List ThreadRefRow :=
  let mine := refs.filter (fun r => r.organization_id == org && r.message_id == msg)
  mine.filter (fun r => r.ref_type == "in_reply_to") ++
    mine.filter (fun r => !(r.ref_type == "in_reply_to"))

/-- occurrence_stitch._try_threading_stitch: first ref whose rfc id resolves
through message_rfc_ids (LIMIT 1) and ticket_messages to a ticket. -/
def threadingLookup (rfcIds : List MessageRfcIdRow) (links : List TicketMessageRow)
    (org : Uuid) : List ThreadRefRow → Option Uuid
  | [] => none
  | ref :: rest =>
    match rfcIds.find? (fun r => r.organization_id == org &&
        r.rfc_message_id == ref.ref_rfc_message_id) with
    | none => threadingLookup rfcIds links org rest
    | some rm =>
      match links.find? (fun tm => tm.organization_id == org &&
          tm.message_id == rm.message_id) with
      | some tm => some tm.ticket_id
      | none => threadingLookup rfcIds links org rest

def _try_threading_stitch (db : PipelineDb) (org msg : Uuid) : Option Uuid :=
  threadingLookup db.message_rfc_ids db.ticket_messages org
    (orderedThreadRefs db.message_thread_refs org msg)

/-- ORDER BY content_version DESC LIMIT 1 over a message's content rows. -/
def latestContent (contents : List MessageContentRow) (org msg : Uuid) :
    Option MessageContentRow :=
  (contents.filter (fun r => r.organization_id == org && r.message_id == msg)).foldl
    (fun acc r =>
      match acc with
      | none => some r
      | some b => if r.content_version > b.content_version then some r else some b) none

/-- tickets/code.new_ticket_code draws os.urandom; the model draws from an
explicit supply of codes. -/
def drawTicketCode (db : PipelineDb) : String × PipelineDb :=
  (db.ticket_code_supply.headD "tkt-modelfresh",
   { db with ticket_code_supply := db.ticket_code_supply.tail })

/-- occurrence_stitch._get_or_create_ticket_with_id. -/
def _get_or_create_ticket_with_id (db : PipelineDb) (org ticket_id : Uuid)
    (subject subject_norm requester_email requester_name : Option String)
    (first_message_at : Option UtcDateTime) : Uuid × PipelineDb :=
  if db.tickets.any (fun t => t.organization_id == org && t.id == ticket_id) then
    (ticket_id, db)
  else
    let (code, db1) := drawTicketCode db
    (ticket_id,
     { db1 with tickets := db1.tickets ++
        [{ id := ticket_id, organization_id := org, ticket_code := code, status := "new",
           priority := "normal", subject := subject, subject_norm := subject_norm,
           requester_email := requester_email, requester_name := requester_name,
           first_message_at := first_message_at, last_message_at := first_message_at,
           closed_at := none, assignee_user_id := none, assignee_queue_id := none,
           stitch_reason := some "x_oss_ticket_id", stitch_confidence := some "high" }] })

/-- occurrence_stitch._create_ticket. -/
def _create_ticket (db : PipelineDb) (org : Uuid)
    (subject subject_norm requester_email requester_name : Option String)
    (first_message_at : Option UtcDateTime)
    (stitch_reason stitch_confidence : String) : Uuid × PipelineDb :=
  let (code, db1) := drawTicketCode db
  let tid := db1.next_ticket_id
  (tid,
   { db1 with
     next_ticket_id := db1.next_ticket_id + 1
     tickets := db1.tickets ++
      [{ id := tid, organization_id := org, ticket_code := code, status := "new",
         priority := "normal", subject := subject, subject_norm := subject_norm,
         requester_email := requester_email, requester_name := requester_name,
         first_message_at := first_message_at, last_message_at := first_message_at,
         closed_at := none, assignee_user_id := none, assignee_queue_id := none,
         stitch_reason := some stitch_reason, stitch_confidence := some stitch_confidence }] })

/-- occurrence_stitch._link_message: conflict-ignore on (tenant, message). -/
def _link_message (db : PipelineDb) (org ticket_id message_id : Uuid)
    (reason confidence : String) : PipelineDb :=
  if db.ticket_messages.any (fun tm => tm.organization_id == org &&
      tm.message_id == message_id) then db
  else { db with ticket_messages := db.ticket_messages ++
          [{ organization_id := org, ticket_id := ticket_id, message_id := message_id,
             stitch_reason := reason, stitch_confidence := confidence }] }

/-- occurrence_stitch._mark_stitched. -/
def _mark_stitched (db : PipelineDb) (now : Rat) (occurrence_id ticket_id : Uuid) : PipelineDb :=
  { db with occurrences := updateOccurrence db.occurrences occurrence_id (fun o =>
      { o with ticket_id := some ticket_id, stitched_at := some now, stitch_error := none,
               state := "stitched" }) }

/-- occurrence_stitch._enqueue_routing. -/
def _enqueue_routing (db : PipelineDb) (now : Rat) (org mailbox_id occurrence_id : Uuid) :
    PipelineDb :=
  let r := enqueue_job ⟨db.jobs, db.next_job_id⟩ now .ticket_apply_routing (some org)
    (some mailbox_id) [("occurrence_id", toString occurrence_id)]
    (some ("ticket_apply_routing:" ++ toString occurrence_id)) none
  { db with jobs := r.2.jobs, next_job_id := r.2.next_job_id }

/-- occurrence_stitch._fail. -/
def _fail_stitch (db : PipelineDb) (occurrence_id : Uuid) (err : String) : PipelineDb :=
  { db with occurrences := updateOccurrence db.occurrences occurrence_id (fun o =>
      { o with state := "failed", stitch_error := some err }) }

/-- worker/jobs/occurrence_stitch.occurrence_stitch. -/
def occurrence_stitch (db : PipelineDb) (now : Rat) (occurrence_id : Uuid) : PipelineDb :=
  match db.occurrences.find? (fun o => o.id == occurrence_id) with
  | none => db
  | some occ =>
    if occ.ticket_id ≠ none ∧ (occ.state = "stitched" ∨ occ.state = "routed") then db
    else
      match occ.message_id with
      | none => _fail_stitch db occurrence_id "missing message_id"
      | some message_id =>
        let org := occ.organization_id
        match db.ticket_messages.find? (fun tm => tm.organization_id == org &&
            tm.message_id == message_id) with
        | some link =>
            _enqueue_routing (_mark_stitched db now occurrence_id link.ticket_id) now org
              occ.mailbox_id occurrence_id
        | none =>
          match latestContent db.message_contents org message_id with
          | none => _fail_stitch db occurrence_id "missing message content"
          | some content =>
            match extract_uuid_header content.headers_json "X-OSS-Ticket-ID" with
            | some oss_ticket_id =>
                let r := _get_or_create_ticket_with_id db org oss_ticket_id content.subject
                  content.subject_norm content.from_email content.from_name content.date_header
                let db2 := _link_message r.2 org r.1 message_id "x_oss_ticket_id" "high"
                _enqueue_routing (_mark_stitched db2 now occurrence_id r.1) now org
                  occ.mailbox_id occurrence_id
            | none =>
              match _try_reply_to_token db.tickets org content.reply_to_emails with
              | some tid =>
                  let db2 := _link_message db org tid message_id "reply_to_token" "high"
                  _enqueue_routing (_mark_stitched db2 now occurrence_id tid) now org
                    occ.mailbox_id occurrence_id
              | none =>
                match _try_threading_stitch db org message_id with
                | some tid =>
                    let db2 := _link_message db org tid message_id "threading" "medium"
                    _enqueue_routing (_mark_stitched db2 now occurrence_id tid) now org
                      occ.mailbox_id occurrence_id
                | none =>
                    let r := _create_ticket db org content.subject content.subject_norm
                      content.from_email content.from_name content.date_header
                      "new_message" "low"
                    let db2 := _link_message r.2 org r.1 message_id "new_ticket" "low"
                    _enqueue_routing (_mark_stitched db2 now occurrence_id r.1) now org
                      occ.mailbox_id occurrence_id

/-! ## Routing (worker/jobs/ticket_apply_routing.py) -/

/-- ticket_apply_routing._is_allowlisted. -/
def _is_allowlisted (allowlist : List AllowlistRow) (org : Uuid) (recipient : String) : Bool :=
  if recipient = "" then false
  else (allowlist.filter (fun r => r.organization_id == org && r.is_enabled)).any (fun r =>
    let pattern := pyLower (r.pattern.getD "")
    !(pattern == "") && fnmatch recipient pattern)

/-- ticket_apply_routing._rule_matches: every non-empty pattern must fnmatch;
the direction check passes when either side is absent. -/
def _rule_matches (rule : RoutingRuleRow) (recipient sender_domain sender_email : String)
    (direction : Option String) : Bool :=
  let rp := pyLower (rule.match_recipient_pattern.getD "")
  let sdp := pyLower (rule.match_sender_domain_pattern.getD "")
  let sep := pyLower (rule.match_sender_email_pattern.getD "")
  (rp == "" || fnmatch recipient rp) &&
  (sdp == "" || fnmatch sender_domain sdp) &&
  (sep == "" || fnmatch sender_email sep) &&
  (match rule.match_direction, direction with
   | some md, some d => md == "" || md == d
   | _, _ => true)

/-- The updated ticket row under a rule's actions: user assignment beats queue
assignment; action_auto_close overrides action_set_status. -/
def ruleUpdatedTicket (rule : RoutingRuleRow) (now : Rat) (before : TicketRow) : TicketRow :=
  let t1 :=
    match rule.action_assign_user_id with
    | some u => { before with assignee_user_id := some u, assignee_queue_id := none }
    | none =>
      match rule.action_assign_queue_id with
      | some q => { before with assignee_queue_id := some q, assignee_user_id := none }
      | none => before
  let t2 :=
    match rule.action_set_status with
    | some s => { t1 with status := s }
    | none => t1
  if rule.action_auto_close then { t2 with status := "closed", closed_at := some now } else t2

/-- Whether the rule's updates dict is non-empty (an UPDATE is issued). -/
def ruleHasUpdates (rule : RoutingRuleRow) : Bool :=
  rule.action_assign_user_id.isSome || rule.action_assign_queue_id.isSome ||
  rule.action_set_status.isSome || rule.action_auto_close

def snapshotOf (t : TicketRow) : TicketSnapshot :=
  ⟨t.status, t.assignee_user_id, t.assignee_queue_id⟩

/-- ticket_apply_routing._apply_rule_actions. -/
def _apply_rule_actions (db : PipelineDb) (now : Rat) (org ticket_id : Uuid)
    (rule : RoutingRuleRow) (occurrence_id : Uuid) : PipelineDb :=
  match db.tickets.find? (fun t => t.organization_id == org && t.id == ticket_id) with
  | none => db
  | some before =>
    let tickets1 :=
      if ruleHasUpdates rule then
        db.tickets.map (fun t =>
          if t.organization_id == org && t.id == ticket_id then ruleUpdatedTicket rule now t
          else t)
      else db.tickets
    let afterRow := tickets1.find? (fun t => t.organization_id == org && t.id == ticket_id)
    { db with
      tickets := tickets1
      ticket_events := db.ticket_events ++
        [{ organization_id := org, ticket_id := ticket_id, event_type := "routing_applied",
           event_data := .routing_applied occurrence_id rule.id (snapshotOf before)
             (afterRow.map snapshotOf) }] }

/-- The latest (from_email, direction) over the ticket's linked messages:
JOIN ticket_messages, messages, message_contents ORDER BY parsed_at DESC LIMIT 1. -/
def latestTicketSender (db : PipelineDb) (org ticket_id : Uuid) :
    Option (Option String × String) :=
  let rows := ((db.ticket_messages.filter (fun tm => tm.organization_id == org &&
      tm.ticket_id == ticket_id)).map (fun tm =>
        match db.messages.find? (fun m => m.id == tm.message_id) with
        | none => []
        | some m =>
          (db.message_contents.filter (fun mc => mc.organization_id == org &&
            mc.message_id == m.id)).map (fun mc => (mc.parsed_at, mc.from_email, m.direction)))).flatten
  (rows.foldl (fun acc r =>
    match acc with
    | none => some r
    | some b => if r.1 > b.1 then some r else some b) none).map (fun r => (r.2.1, r.2.2))

/-- The (priority ASC, id ASC) order; ids are unique so ties cannot occur. -/
def ruleKeyLe (a b : RoutingRuleRow) : Bool :=
  decide (a.priority < b.priority) || (a.priority == b.priority && decide (a.id ≤ b.id))

def insertRuleSorted (r : RoutingRuleRow) : List RoutingRuleRow → List RoutingRuleRow
  | [] => [r]
  | x :: xs => if ruleKeyLe r x then r :: x :: xs else x :: insertRuleSorted r xs

/-- ORDER BY priority ASC, id ASC (insertion sort). -/
def sortRules (rules : List RoutingRuleRow) : List RoutingRuleRow :=
  rules.foldr insertRuleSorted []

/-- Iteration of the sorted enabled rules: apply the first match, stop. -/
def applyFirstOf (db : PipelineDb) (now : Rat) (org ticket_id : Uuid)
    (recipient sender_domain sender_email : String) (direction : Option String)
    (occurrence_id : Uuid) : List RoutingRuleRow → PipelineDb
  | [] => db
  | rule :: rest =>
    if _rule_matches rule recipient sender_domain sender_email direction then
      _apply_rule_actions db now org ticket_id rule occurrence_id
    else applyFirstOf db now org ticket_id recipient sender_domain sender_email direction
      occurrence_id rest

/-- Python from_email.split("@", 1)[1] when "@" is present, else "". -/
def senderDomainOf (from_email : String) : String :=
  if from_email.data.contains '@' then
    String.mk ((from_email.data.dropWhile (fun c => c ≠ '@')).tail)
  else ""

/-- ticket_apply_routing._apply_first_matching_rule. -/
def _apply_first_matching_rule (db : PipelineDb) (now : Rat) (org ticket_id : Uuid)
    (recipient : String) (occurrence_id : Uuid) : PipelineDb :=
  let msg_from := latestTicketSender db org ticket_id
  let from_email := pyLower (match msg_from with
    | some p => p.1.getD ""
    | none => "")
  let sender_domain := senderDomainOf from_email
  let direction := msg_from.map (fun p => p.2)
  let rules := sortRules (db.routing_rules.filter (fun r =>
    r.organization_id == org && r.is_enabled))
  applyFirstOf db now org ticket_id recipient sender_domain from_email direction
    occurrence_id rules

/-- ticket_apply_routing._mark_spam. -/
def _mark_spam (db : PipelineDb) (now : Rat) (org ticket_id occurrence_id : Uuid)
    (recipient : String) : PipelineDb :=
  { db with
    tickets := db.tickets.map (fun t =>
      if t.organization_id == org && t.id == ticket_id then
        { t with status := "spam", closed_at := some now }
      else t)
    ticket_events := db.ticket_events ++
      [{ organization_id := org, ticket_id := ticket_id, event_type := "auto_spam",
         event_data := .auto_spam occurrence_id recipient }] }

/-- ticket_apply_routing._mark_routed. -/
def _mark_routed (db : PipelineDb) (now : Rat) (occurrence_id : Uuid) : PipelineDb :=
  { db with occurrences := updateOccurrence db.occurrences occurrence_id (fun o =>
      { o with routed_at := some now, route_error := none, state := "routed" }) }

/-- worker/jobs/ticket_apply_routing.ticket_apply_routing. -/
def ticket_apply_routing (db : PipelineDb) (now : Rat) (occurrence_id : Uuid) : PipelineDb :=
  match db.occurrences.find? (fun o => o.id == occurrence_id) with
  | none => db
  | some occ =>
    if occ.state = "routed" then db
    else
      match occ.ticket_id with
      | none =>
        { db with occurrences := updateOccurrence db.occurrences occurrence_id (fun o =>
            { o with state := "failed", route_error := some "missing ticket_id" }) }
      | some ticket_id =>
        let org := occ.organization_id
        let recipient := pyLower (occ.original_recipient.getD "")
        if _is_allowlisted db.recipient_allowlist org recipient then
          _mark_routed (_apply_first_matching_rule db now org ticket_id recipient occurrence_id)
            now occurrence_id
        else
          _mark_routed (_mark_spam db now org ticket_id occurrence_id recipient) now occurrence_id

/-! ## Mailbox history sync (services/mailbox_sync.py) -/

inductive GmailErr where
  | historyExpired
  | apiError (status_code : Nat)
deriving Repr, DecidableEq

def GmailErr.code : GmailErr → Nat
  | .historyExpired => 404
  | .apiError c => c

/-- Exceptions sync_mailbox_history can propagate: Gmail API errors, or
non-Gmail failures raised before the listing (credentials, decryption). -/
inductive SyncRaise where
  | gmail (e : GmailErr)
  | other (msg : String)
deriving Repr, DecidableEq

structure GmailHistoryRecord where
  history_id : Option Nat
  message_ids : List String
deriving Repr, DecidableEq

structure GmailHistoryPage where
  history_id : Option Nat
  records : List GmailHistoryRecord
  next_page_token : Option String
deriving Repr, DecidableEq

structure GmailMessageRaw where
  id : String
  thread_id : Option String
  history_id : Option Nat
  internal_date : Option Rat
  label_ids : List String
  raw : String
deriving Repr, DecidableEq

structure SyncOccurrenceRow where
  id : Uuid
  organization_id : Uuid
  mailbox_id : Uuid
  gmail_message_id : String
  gmail_thread_id : Option String
  gmail_history_id : Option Nat
  gmail_internal_date : Option Rat
  label_ids : List String
  state : String
deriving Repr, DecidableEq

structure SyncDb where
  mailboxes : List MailboxRow
  occurrences : List SyncOccurrenceRow
  jobs : List BgJobRow
  next_job_id : Uuid
  next_occurrence_id : Uuid
deriving Repr, DecidableEq

/-- mailbox_sync._load_mailbox_for_sync: FOR UPDATE load; disabled or paused
mailboxes yield none. -/
def _load_mailbox_for_sync (mailboxes : List MailboxRow) (now : Rat) (org mid : Uuid) :
    Option MailboxRow :=
  match mailboxes.find? (fun mb => mb.organization_id == org && mb.id == mid) with
  | none => none
  | some mb =>
    if !mb.is_enabled then none
    else
      match mb.ingestion_paused_until with
      | some t => if t > now then none else some mb
      | none => some mb

def setMailbox (mailboxes : List MailboxRow) (mid : Uuid)
    (f : MailboxRow → MailboxRow) : List MailboxRow :=
  mailboxes.map (fun mb => if mb.id == mid then f mb else mb)

/-- mailbox_sync.enqueue_mailbox_backfill: dedupe key "mailbox_backfill:<mailbox>". -/
def enqueue_mailbox_backfill (db : SyncDb) (now : Rat) (org mid : Uuid) (reason : String) :
    Option Uuid × SyncDb :=
  let r := enqueue_job ⟨db.jobs, db.next_job_id⟩ now .mailbox_backfill (some org) (some mid)
    [("organization_id", toString org), ("mailbox_id", toString mid), ("reason", reason)]
    (some ("mailbox_backfill:" ++ toString mid)) none
  (r.1, { db with jobs := r.2.jobs, next_job_id := r.2.next_job_id })

/-- The pagination loop of sync_mailbox_history over an execution trace of
list_history calls: each call yields a page or raises; the loop tracks the
highest history id and the deduplicated discovery-ordered message ids. A page
without a next_page_token (or an exhausted trace) ends the loop. -/
def runHistoryListing : List (Except GmailErr GmailHistoryPage) → Nat → List String →
    Except GmailErr (Nat × List String)
  | [], highest, ordered => .ok (highest, ordered)
  | .error e :: _, _, _ => .error e
  | .ok page :: rest, highest, ordered =>
    let h1 := match page.history_id with
      | some h => if h > highest then h else highest
      | none => highest
    let step := page.records.foldl (fun acc rec =>
      let hacc := match rec.history_id with
        | some h => if h > acc.1 then h else acc.1
        | none => acc.1
      (hacc, rec.message_ids.foldl (fun ord mid =>
        if ord.contains mid then ord else ord ++ [mid]) acc.2)) (h1, ordered)
    match page.next_page_token with
    | some t => if t = "" then .ok step else runHistoryListing rest step.1 step.2
    | none => .ok step

/-- mailbox_sync._upsert_occurrence: conflict on (tenant, mailbox,
gmail_message_id) refreshes the mutable mirror columns, never pipeline state. -/
def _upsert_occurrence (db : SyncDb) (org mid : Uuid) (raw : GmailMessageRaw) :
    Uuid × SyncDb :=
  match db.occurrences.find? (fun o => o.organization_id == org && o.mailbox_id == mid &&
      o.gmail_message_id == raw.id) with
  | some existing =>
    (existing.id,
     { db with occurrences := db.occurrences.map (fun o =>
        if o.id == existing.id then
          { o with gmail_thread_id := raw.thread_id, gmail_history_id := raw.history_id,
                   gmail_internal_date := raw.internal_date, label_ids := raw.label_ids }
        else o) })
  | none =>
    (db.next_occurrence_id,
     { db with
       next_occurrence_id := db.next_occurrence_id + 1
       occurrences := db.occurrences ++
        [{ id := db.next_occurrence_id, organization_id := org, mailbox_id := mid,
           gmail_message_id := raw.id, gmail_thread_id := raw.thread_id,
           gmail_history_id := raw.history_id, gmail_internal_date := raw.internal_date,
           label_ids := raw.label_ids, state := "discovered" }] })

/-- mailbox_sync._base64url_to_base64: pad, then map the url-safe alphabet back
to the standard one (the source decodes and re-encodes; on valid input that is
this character translation). -/
def _base64url_to_base64 (v : String) : String :=
  let padded := v ++ String.mk (List.replicate ((4 - v.length % 4) % 4) '=')
  String.mk (padded.data.map (fun c => if c = '-' then '+' else if c = '_' then '/' else c))

/-- mailbox_sync._enqueue_occurrence_fetch_raw. -/
def _enqueue_occurrence_fetch_raw (db : SyncDb) (now : Rat) (org mid occurrence_id : Uuid)
    (raw_base64url : String) : SyncDb :=
  let r := enqueue_job ⟨db.jobs, db.next_job_id⟩ now .occurrence_fetch_raw (some org) (some mid)
    [("occurrence_id", toString occurrence_id),
     ("raw_eml_base64", _base64url_to_base64 raw_base64url)]
    (some ("occurrence_fetch_raw:" ++ toString occurrence_id)) none
  { db with jobs := r.2.jobs, next_job_id := r.2.next_job_id }

/-- The per-message fetch/upsert/enqueue loop of sync_mailbox_history; rawOf is
the provider's get_message_raw behaviour. A raised GmailApiError carries the
session state reached so far. -/
def historyFetchLoop (rawOf : String → Except GmailErr GmailMessageRaw) (now : Rat)
    (org mid : Uuid) : List String → SyncDb → Nat → Except (GmailErr × SyncDb) (SyncDb × Nat)
  | [], db, highest => .ok (db, highest)
  | m :: rest, db, highest =>
    match rawOf m with
    | .error e => .error (e, db)
    | .ok raw =>
      let r := _upsert_occurrence db org mid raw
      let db2 := _enqueue_occurrence_fetch_raw r.2 now org mid r.1 raw.raw
      let h2 := match raw.history_id with
        | some h => if h > highest then h else highest
        | none => highest
      historyFetchLoop rawOf now org mid rest db2 h2

/-- mailbox_sync.sync_mailbox_history. tokenResult models
_get_mailbox_access_token, which runs before any listing and whose failure
propagates as a non-Gmail exception. A raised error carries the session state
(the enclosing worker transaction still commits after mark_failed). -/
def sync_mailbox_history (db : SyncDb) (now : Rat) (org mid : Uuid)
    (tokenResult : Except String String)
    (historyTrace : List (Except GmailErr GmailHistoryPage))
    (rawOf : String → Except GmailErr GmailMessageRaw) :
    Except (SyncRaise × SyncDb) SyncDb :=
  match _load_mailbox_for_sync db.mailboxes now org mid with
  | none => .ok db
  | some mailbox =>
    match mailbox.gmail_history_id with
    | none =>
      let db1 := { db with mailboxes := setMailbox db.mailboxes mid (fun mb =>
        { mb with last_sync_error := some "No gmail_history_id; queued full backfill" }) }
      .ok (enqueue_mailbox_backfill db1 now org mid "missing_history_id").2
    | some start_history_id =>
      match tokenResult with
      | .error e => .error (.other e, db)
      | .ok _ =>
        match runHistoryListing historyTrace start_history_id [] with
        | .error .historyExpired =>
          let msg := some "Gmail history is invalid/expired; queued full backfill"
          let db1 := { db with mailboxes := setMailbox db.mailboxes mid (fun mb =>
            { mb with last_sync_error := msg }) }
          .ok (enqueue_mailbox_backfill db1 now org mid "history_invalid").2
        | .error (.apiError c) =>
          let msg := some ("Gmail incremental sync failed (" ++ toString c ++ ")")
          let db1 := { db with mailboxes := setMailbox db.mailboxes mid (fun mb =>
            { mb with last_sync_error := msg }) }
          .error (.gmail (.apiError c), db1)
        | .ok listing =>
          match historyFetchLoop rawOf now org mid listing.2 db listing.1 with
          | .error fail =>
            let msg := some ("Gmail incremental sync failed (" ++ toString fail.1.code ++ ")")
            let db1 := { fail.2 with mailboxes := setMailbox fail.2.mailboxes mid (fun mb =>
              { mb with last_sync_error := msg }) }
            .error (.gmail fail.1, db1)
          | .ok fin =>
            .ok { fin.1 with mailboxes := setMailbox fin.1.mailboxes mid (fun mb =>
              { mb with gmail_history_id := some fin.2,
                        last_incremental_sync_at := some now,
                        last_sync_error := none }) }

/-- Live (queued or running) mailbox_backfill jobs of a tenant carrying a given
dedupe key. -/
def countLiveBackfill (jobs : List BgJobRow) (org : Uuid) (k : String) : Nat :=
  (jobs.filter (fun j =>
    j.organization_id == some org && j.jobType == JobType.mailbox_backfill &&
    j.dedupe_key == some k && (j.status == JobStatus.queued ||
      j.status == JobStatus.running))).length

/-! ## Concrete inputs used by counterexamples and witnesses -/

def collisionFp : Bytes := List.replicate 32 0x11

def collisionSig1 : Bytes := List.replicate 32 0x22

def collisionSig2 : Bytes := List.replicate 32 0x33

def collisionDb0 : CanonicalDb := ⟨[], [], [], [], 100⟩

def collisionStep1 : Uuid × CanonicalDb :=
  _upsert_canonical_message collisionDb0 1 "inbound" none (some "m1@example.test")
    collisionFp collisionSig1

def collisionStep2 : Uuid × CanonicalDb :=
  _upsert_canonical_message collisionStep1.2 1 "inbound" none (some "m2@example.test")
    collisionFp collisionSig2

def emptyEmail : ParsedEmail :=
  { rfc_message_id := none, date := none, subject := none, subject_norm := none,
    from_email := none, from_name := none, reply_to_emails := [], to_emails := [],
    cc_emails := [], headers_json := [], body_text := none, body_html_sanitized := none,
    in_reply_to := none, references := [], attachments := [] }

def contentParsed : ParsedEmail :=
  { emptyEmail with
    subject := some "Hello", subject_norm := some "hello",
    from_email := some "a@x.com", body_text := some "body" }

def contentRowV1 : MessageContentRow :=
  { organization_id := 1, message_id := 2, content_version := 1, parser_version := 1,
    parsed_at := 0, date_header := none, subject := some "Hello",
    subject_norm := some "hello", from_email := some "a@x.com", from_name := none,
    reply_to_emails := [], to_emails := [], cc_emails := [], headers_json := [],
    body_text := some "body", body_html_sanitized := none, has_attachments := false,
    attachment_count := 0, snippet := some "body" }

def contentTables1 : ContentTables := ⟨[contentRowV1], []⟩

def nonintEmail1 : ParsedEmail :=
  { emptyEmail with
    rfc_message_id := some "1@x", date := some ⟨2026, 1, 2, 3, 4, 5⟩,
    subject := some "Re: Hello", subject_norm := some "hello",
    from_email := some "a@x.com", to_emails := ["t@x.com"],
    headers_json := [("To", ["t@x.com"])], body_text := some "hi" }

def nonintEmail2 : ParsedEmail :=
  { emptyEmail with
    rfc_message_id := some "2@x", date := some ⟨2026, 1, 2, 9, 9, 9⟩,
    subject := some "Hello", subject_norm := some "hello",
    from_email := some "a@x.com", cc_emails := ["c@y.org"], reply_to_emails := ["r@z.net"],
    body_html_sanitized := some "<p>hi</p>", body_text := some "hi" }

def emptyPipelineDb : PipelineDb :=
  { occurrences := [], messages := [], message_contents := [], message_thread_refs := [],
    message_rfc_ids := [], ticket_messages := [], tickets := [], ticket_events := [],
    recipient_allowlist := [], routing_rules := [], jobs := [], next_job_id := 1,
    next_ticket_id := 10, ticket_code_supply := [] }

def spamOcc : OccurrenceRow :=
  { id := 1, organization_id := 1, mailbox_id := 2, state := "stitched",
    message_id := some 3, ticket_id := some 5, stitched_at := none, stitch_error := none,
    routed_at := none, route_error := none, original_recipient := none }

def spamTicket : TicketRow :=
  { id := 5, organization_id := 1, ticket_code := "tkt-a", status := "new",
    priority := "normal", subject := none, subject_norm := none, requester_email := none,
    requester_name := none, first_message_at := none, last_message_at := none,
    closed_at := none, assignee_user_id := none, assignee_queue_id := none,
    stitch_reason := some "new_message", stitch_confidence := some "low" }

def spamDb : PipelineDb :=
  { emptyPipelineDb with occurrences := [spamOcc], tickets := [spamTicket] }

def routeMsg : MessageRow :=
  { id := 3, organization_id := 1, direction := "inbound", oss_message_id := none,
    rfc_message_id := none, fingerprint_v1 := [], signature_v1 := [],
    collision_group_id := none }

def routeContent : MessageContentRow :=
  { contentRowV1 with message_id := 3, parsed_at := 1 }

def rule10 : RoutingRuleRow :=
  { id := 1, organization_id := 1, is_enabled := true, priority := 10,
    match_recipient_pattern := none, match_sender_domain_pattern := none,
    match_sender_email_pattern := none, match_direction := none,
    action_assign_queue_id := none, action_assign_user_id := none,
    action_set_status := some "open", action_drop := false, action_auto_close := false }

def rule20 : RoutingRuleRow :=
  { rule10 with id := 2, priority := 20, action_set_status := some "pending" }

def routeLink : TicketMessageRow :=
  { organization_id := 1, ticket_id := 5, message_id := 3,
    stitch_reason := "new_ticket", stitch_confidence := "low" }

def routeDb : PipelineDb :=
  { emptyPipelineDb with
    tickets := [spamTicket], messages := [routeMsg],
    message_contents := [routeContent],
    ticket_messages := [routeLink],
    routing_rules := [rule20, rule10] }

def stitchOcc : OccurrenceRow :=
  { spamOcc with state := "parsed", ticket_id := none }

def stitchLink : TicketMessageRow :=
  { organization_id := 1, ticket_id := 7, message_id := 3,
    stitch_reason := "new_ticket", stitch_confidence := "low" }

def stitchDb : PipelineDb :=
  { emptyPipelineDb with occurrences := [stitchOcc], ticket_messages := [stitchLink] }

def syncMailbox : MailboxRow :=
  { id := 2, organization_id := 1, is_enabled := true, ingestion_paused_until := none,
    ingestion_pause_reason := none, gmail_history_id := some 10, last_full_sync_at := none,
    last_incremental_sync_at := none, last_sync_error := none }

def syncDb0 : SyncDb :=
  { mailboxes := [syncMailbox], occurrences := [], jobs := [], next_job_id := 1,
    next_occurrence_id := 1 }

def syncRawOf : String → Except GmailErr GmailMessageRaw :=
  fun _ => .error (.apiError 500)

/-! ## Theorems -/

theorem natToBytesBE_length (n x : Nat) : (natToBytesBE n x).length = n := by
  induction n generalizing x with
  | zero => rfl
  | succ m ih => simp [natToBytesBE, ih]

theorem digestBytes_length (h : Hash8) : (digestBytes h).length = 32 := by
  simp [digestBytes, natToBytesBE_length]

theorem sha256_length (msg : Bytes) : (sha256 msg).length = 32 := by
  simp [sha256, digestBytes_length]

/-- C1: the collision-group invariant fails on the code: _upsert_canonical_message
never writes collision_group_id, so after inserting two canonical messages that
share (tenant, fingerprint_version, fingerprint) but differ in signature_v1,
both messages rows still have collision_group_id = none (the claim demands a
shared non-null group id). -/
theorem collision_group_never_assigned_by_upsert :
    collisionStep2.1 ≠ collisionStep1.1 ∧
    collisionStep2.2.messages.map (fun m => m.fingerprint_v1) = [collisionFp, collisionFp] ∧
    collisionStep2.2.messages.map (fun m => m.signature_v1) = [collisionSig1, collisionSig2] ∧
    collisionStep2.2.messages.map (fun m => m.collision_group_id) = [none, none] := by
  decide

/-- C3: the content-write step does not insert at max+1: with an existing
content row at version 1 for (tenant 1, message 2), the source computes
content_version `max_v + 1 if max_v == 0 else max_v` = 1, the versioned insert
conflicts, and no new (higher-version) row appears. -/
theorem content_version_not_incremented :
    sourceContentVersion (maxContentVersion contentTables1.message_contents 1 2) = 1 ∧
    _insert_message_content contentTables1 5 1 2 contentParsed = contentTables1 ∧
    ∀ r ∈ (_insert_message_content contentTables1 5 1 2 contentParsed).message_contents,
      r.content_version ≠ 2 := by
  decide

/-- C10: fingerprint noninterference: two parsed emails that agree on
from_email, subject_norm, the UTC calendar day of the Date header, the stripped
body_text and the ordered attachment payload SHA-256 list get identical
fingerprints (32 bytes), whatever their other fields. -/
theorem fingerprint_v1_noninterference (e1 e2 : ParsedEmail)
    (hfrom : e1.from_email = e2.from_email)
    (hsubj : e1.subject_norm = e2.subject_norm)
    (hday : e1.date.map dateIso = e2.date.map dateIso)
    (hbody : pyStrip (e1.body_text.getD "") = pyStrip (e2.body_text.getD ""))
    (hatt : e1.attachments.map compute_attachment_sha256 =
            e2.attachments.map compute_attachment_sha256) :
    fingerprintOfEmail e1 = fingerprintOfEmail e2 ∧ (fingerprintOfEmail e1).length = 32 := by
  constructor
  · simp only [fingerprintOfEmail, compute_fingerprint_v1]
    rw [hfrom, hsubj, hday, hbody, hatt]
  · exact sha256_length _

/-- C10 witness: two concrete emails differing in rfc_message_id, recipients,
time-of-day and sanitized HTML share the fingerprint. -/
theorem fingerprint_v1_noninterference_witness :
    fingerprintOfEmail nonintEmail1 = fingerprintOfEmail nonintEmail2 ∧
    (fingerprintOfEmail nonintEmail1).length = 32 :=
  fingerprint_v1_noninterference nonintEmail1 nonintEmail2 rfl rfl (by decide) rfl rfl

/-- C5 counterexample: with headers empty, to_emails = [" "] and
cc_emails = ["c@x"], the claim demands recipient "c@x" with source to_cc_scan
(the first non-empty To address, else the first non-empty Cc address), but the
resolver inspects only to_emails[0], finds it blank, and returns recipient null
with source unknown without consulting Cc. -/
theorem resolve_recipient_first_nonempty_counterexample :
    (resolve_original_recipient [] [" "] ["c@x"]).recipient = none ∧
    (resolve_original_recipient [] [" "] ["c@x"]).source = RoutingRecipientSource.unknown ∧
    ¬((resolve_original_recipient [] [" "] ["c@x"]).recipient = some "c@x" ∧
      (resolve_original_recipient [] [" "] ["c@x"]).source =
        RoutingRecipientSource.to_cc_scan) := by
  decide

/-- C4: _mark_failed at the default worker config is total and three-way:
attempts always rises by exactly one; a retryable failure of a mailbox sync job
with a mailbox id and post-increment attempts ≥ 5 pauses the mailbox for 900
seconds with the circuit-breaker reason and fails the job terminally; otherwise
permanent failures and exhausted attempts fail the job with mailboxes
untouched; otherwise the job is requeued at now + min(60, 0.5 * 2^min(attempts, 8)). -/
theorem mark_failed_three_way (now : Rat) (job : BgJobRow) (job_type : JobType)
    (mailbox_id : Option Uuid) (mailboxes : List MailboxRow) (error : String)
    (permanent : Bool) :
    ((_mark_failed defaultWorkerConfig now job job_type mailbox_id mailboxes error
        permanent).job.attempts = job.attempts + 1) ∧
    (∀ mid, mailbox_id = some mid → permanent = false →
      (job_type = .mailbox_backfill ∨ job_type = .mailbox_history_sync) →
      job.attempts + 1 ≥ 5 →
      (_mark_failed defaultWorkerConfig now job job_type mailbox_id mailboxes error
          permanent).job.status = .failed ∧
      (_mark_failed defaultWorkerConfig now job job_type mailbox_id mailboxes error
          permanent).mailboxes = mailboxes.map (fun mb =>
        if mb.id = mid then
          { mb with
            ingestion_paused_until := some (now + 900)
            ingestion_pause_reason := some ("Auto-paused by sync circuit breaker after "
              ++ toString (job.attempts + 1) ++ " failed " ++ job_type.value ++ " attempts")
            last_sync_error := some error }
        else mb)) ∧
    ((permanent = true ∨ job.attempts + 1 ≥ job.max_attempts) →
      (mailbox_id = none ∨ permanent = true ∨
        ¬(job_type = .mailbox_backfill ∨ job_type = .mailbox_history_sync) ∨
        job.attempts + 1 < 5) →
      (_mark_failed defaultWorkerConfig now job job_type mailbox_id mailboxes error
          permanent).job.status = .failed ∧
      (_mark_failed defaultWorkerConfig now job job_type mailbox_id mailboxes error
          permanent).mailboxes = mailboxes) ∧
    (permanent = false → job.attempts + 1 < job.max_attempts →
      (mailbox_id = none ∨
        ¬(job_type = .mailbox_backfill ∨ job_type = .mailbox_history_sync) ∨
        job.attempts + 1 < 5) →
      (_mark_failed defaultWorkerConfig now job job_type mailbox_id mailboxes error
          permanent).job.status = .queued ∧
      (_mark_failed defaultWorkerConfig now job job_type mailbox_id mailboxes error
          permanent).job.run_at = now + min 60 ((1 / 2) * 2 ^ (min (job.attempts + 1) 8)) ∧
      (_mark_failed defaultWorkerConfig now job job_type mailbox_id mailboxes error
          permanent).mailboxes = mailboxes) := by
  have hmax5 : max 1 defaultWorkerConfig.mailbox_sync_circuit_breaker_attempts = 5 := rfl
  have hmax900 : max (1 : Rat) defaultWorkerConfig.mailbox_sync_pause_seconds = 900 := by
    norm_num [defaultWorkerConfig]
  refine ⟨?_, ?_, ?_, ?_⟩
  · cases mailbox_id with
    | none =>
      simp only [_mark_failed]
      split <;> rfl
    | some mid =>
      simp only [_mark_failed]
      split
      · rfl
      · split <;> rfl
  · intro mid hmid hperm htype hatt
    subst hmid
    simp only [_mark_failed, hmax5]
    rw [if_pos ⟨hperm, htype, hatt⟩]
    refine ⟨rfl, ?_⟩
    simp only [_pause_mailbox_ingestion, hmax900]
  · intro hterm hnob
    cases mailbox_id with
    | none =>
      simp only [_mark_failed]
      rw [if_pos hterm]
      exact ⟨rfl, rfl⟩
    | some mid =>
      simp only [_mark_failed, hmax5]
      rw [if_neg, if_pos hterm]
      · exact ⟨rfl, rfl⟩
      · rcases hnob with h | h | h | h
        · exact absurd h (by simp)
        · intro hc; rw [h] at hc; exact absurd hc.1 (by simp)
        · intro hc; exact h hc.2.1
        · intro hc; omega
  · intro hperm hlt hnob
    cases mailbox_id with
    | none =>
      simp only [_mark_failed]
      rw [if_neg]
      · exact ⟨rfl, rfl, rfl⟩
      · intro hc
        rcases hc with hc | hc
        · rw [hperm] at hc; exact absurd hc (by simp)
        · omega
    | some mid =>
      simp only [_mark_failed, hmax5]
      rw [if_neg, if_neg]
      · exact ⟨rfl, rfl, rfl⟩
      · intro hc
        rcases hc with hc | hc
        · rw [hperm] at hc; exact absurd hc (by simp)
        · omega
      · rcases hnob with h | h | h
        · exact absurd h (by simp)
        · intro hc; exact h hc.2.1
        · intro hc; omega

/-- An upsert with no oss-id hit and a fingerprint-table hit returns the mapped
message id and leaves the store untouched. -/
theorem upsert_hit_fingerprint (db : CanonicalDb) (org : Uuid) (dir : String)
    (oss : Option Uuid) (rfc : Option String) (fp sig : Bytes) (m : Uuid)
    (h : ossHit db.message_oss_ids org oss = none)
    (hm : lookupFingerprint db.message_fingerprints org fp sig = some m) :
    _upsert_canonical_message db org dir oss rfc fp sig = (m, db) := by
  simp only [_upsert_canonical_message, h, hm]

/-- C2: canonical dedupe. Two sequential upserts with no oss-id hit and the
same (fingerprint, signature) return the same message id and the second leaves
the messages table unchanged; and an upsert whose oss_message_id is already
mapped returns that mapping untouched, never consulting the fingerprint table. -/
theorem upsert_canonical_dedupe (db : CanonicalDb) (org : Uuid) (dir1 dir2 : String)
    (oss1 oss2 : Option Uuid) (rfc1 rfc2 : Option String) (fp sig : Bytes)
    (h1 : ossHit db.message_oss_ids org oss1 = none)
    (h2 : ossHit ((_upsert_canonical_message db org dir1 oss1 rfc1 fp sig).2).message_oss_ids
      org oss2 = none) :
    ((_upsert_canonical_message ((_upsert_canonical_message db org dir1 oss1 rfc1 fp sig).2)
        org dir2 oss2 rfc2 fp sig).1
      = (_upsert_canonical_message db org dir1 oss1 rfc1 fp sig).1) ∧
    ((_upsert_canonical_message ((_upsert_canonical_message db org dir1 oss1 rfc1 fp sig).2)
        org dir2 oss2 rfc2 fp sig).2).messages
      = ((_upsert_canonical_message db org dir1 oss1 rfc1 fp sig).2).messages ∧
    (∀ u m, lookupOssId db.message_oss_ids org u = some m →
      _upsert_canonical_message db org dir1 (some u) rfc1 fp sig = (m, db)) := by
  have part2 : ∀ u m, lookupOssId db.message_oss_ids org u = some m →
      _upsert_canonical_message db org dir1 (some u) rfc1 fp sig = (m, db) := by
    intro u m hm
    simp only [_upsert_canonical_message, ossHit, hm]
  rcases hfp : lookupFingerprint db.message_fingerprints org fp sig with _ | m
  · -- no fingerprint hit: the first call inserts, the second finds the new row
    have step1 : (_upsert_canonical_message db org dir1 oss1 rfc1 fp sig).1
        = db.next_message_id := by
      simp only [_upsert_canonical_message, h1, hfp]
    have fps1 : ((_upsert_canonical_message db org dir1 oss1 rfc1 fp sig).2).message_fingerprints
        = db.message_fingerprints ++
          [{ organization_id := org, fingerprint_version := 1, fingerprint := fp,
             signature_v1 := sig, message_id := db.next_message_id }] := by
      simp only [_upsert_canonical_message, h1, hfp]
    have hfind : lookupFingerprint
        ((_upsert_canonical_message db org dir1 oss1 rfc1 fp sig).2).message_fingerprints
        org fp sig = some db.next_message_id := by
      rw [fps1]
      unfold lookupFingerprint at hfp ⊢
      rw [List.find?_append]
      rcases hf : List.find? (fun r => r.organization_id == org && r.fingerprint_version == 1 &&
          r.fingerprint == fp && r.signature_v1 == sig) db.message_fingerprints with _ | r
      · rw [hf]
        rw [List.find?_cons_of_pos _ (by simp)]
        rfl
      · rw [hf] at hfp; simp at hfp
    have step2 := upsert_hit_fingerprint
      ((_upsert_canonical_message db org dir1 oss1 rfc1 fp sig).2) org dir2 oss2 rfc2 fp sig
      db.next_message_id h2 hfind
    rw [step2, step1]
    exact ⟨rfl, rfl, part2⟩
  · -- fingerprint hit: both calls return it and leave the state untouched
    have step1 : _upsert_canonical_message db org dir1 oss1 rfc1 fp sig = (m, db) := by
      simp only [_upsert_canonical_message, h1, hfp]
    rw [step1] at h2 ⊢
    have step2 := upsert_hit_fingerprint db org dir2 oss2 rfc2 fp sig m h2 hfp
    rw [step2]
    exact ⟨rfl, rfl, part2⟩

/-- C2 witness: on an empty tenant store, two upserts with no oss id and equal
fingerprint and signature return one message id with one messages row. -/
theorem upsert_canonical_dedupe_witness :
    ((_upsert_canonical_message ((_upsert_canonical_message ⟨[], [], [], [], 7⟩ 1 "inbound"
        none (some "r@x") [1] [2]).2) 1 "inbound" none (some "r@x") [1] [2]).1
      = (_upsert_canonical_message ⟨[], [], [], [], 7⟩ 1 "inbound" none (some "r@x") [1] [2]).1) ∧
    ((_upsert_canonical_message ((_upsert_canonical_message ⟨[], [], [], [], 7⟩ 1 "inbound"
        none (some "r@x") [1] [2]).2) 1 "inbound" none (some "r@x") [1] [2]).2).messages
      = ((_upsert_canonical_message ⟨[], [], [], [], 7⟩ 1 "inbound"
          none (some "r@x") [1] [2]).2).messages ∧
    (∀ u m, lookupOssId (⟨[], [], [], [], 7⟩ : CanonicalDb).message_oss_ids 1 u = some m →
      _upsert_canonical_message ⟨[], [], [], [], 7⟩ 1 "inbound" (some u) (some "r@x") [1] [2]
        = (m, ⟨[], [], [], [], 7⟩)) :=
  upsert_canonical_dedupe ⟨[], [], [], [], 7⟩ 1 "inbound" "inbound" none none
    (some "r@x") (some "r@x") [1] [2] rfl rfl

/-- C5 (amended): recipient precedence as the code implements it. The first
X-Gm-Original-To address wins (source workspace_header, confidence high); else
the first Delivered-To address (delivered_to, medium); else the first
X-Original-To address (x_original_to, medium); else, when the To list is
non-empty, only its first entry is considered: trimmed and lowercased it
becomes the recipient (to_cc_scan, low) when non-blank, otherwise the result is
unknown and Cc is not consulted; else, when the Cc list is non-empty, likewise
its first entry; else recipient null, source unknown, confidence low. The
evidence always records the chosen header name and value and the full
candidate lists of the three headers and of to/cc. -/
theorem resolve_recipient_amended_precedence (headers_json : List (String × List String))
    (to_emails cc_emails : List String) :
    (∀ v t, _header_candidates headers_json "x-gm-original-to" = v :: t →
      resolve_original_recipient headers_json to_emails cc_emails =
        { recipient := some v, source := .workspace_header, confidence := .high,
          evidence :=
          { selected_from := some "X-Gm-Original-To", selected_value := some v,
            x_gm_original_to_candidates := v :: t,
            delivered_to_candidates := _header_candidates headers_json "delivered-to",
            x_original_to_candidates := _header_candidates headers_json "x-original-to",
            to_candidates := to_emails.filterMap (fun e =>
              if pyStrip e = "" then none else some (pyLower (pyStrip e))),
            cc_candidates := cc_emails.filterMap (fun e =>
              if pyStrip e = "" then none else some (pyLower (pyStrip e))) } }) ∧
    (_header_candidates headers_json "x-gm-original-to" = [] →
      ∀ v t, _header_candidates headers_json "delivered-to" = v :: t →
      (resolve_original_recipient headers_json to_emails cc_emails).recipient = some v ∧
      (resolve_original_recipient headers_json to_emails cc_emails).source = .delivered_to ∧
      (resolve_original_recipient headers_json to_emails cc_emails).confidence = .medium ∧
      (resolve_original_recipient headers_json to_emails cc_emails).evidence.selected_from =
        some "Delivered-To") ∧
    (_header_candidates headers_json "x-gm-original-to" = [] →
      _header_candidates headers_json "delivered-to" = [] →
      ∀ v t, _header_candidates headers_json "x-original-to" = v :: t →
      (resolve_original_recipient headers_json to_emails cc_emails).recipient = some v ∧
      (resolve_original_recipient headers_json to_emails cc_emails).source = .x_original_to ∧
      (resolve_original_recipient headers_json to_emails cc_emails).confidence = .medium ∧
      (resolve_original_recipient headers_json to_emails cc_emails).evidence.selected_from =
        some "X-Original-To") ∧
    (_header_candidates headers_json "x-gm-original-to" = [] →
      _header_candidates headers_json "delivered-to" = [] →
      _header_candidates headers_json "x-original-to" = [] →
      ∀ e t, to_emails = e :: t →
      (pyLower (pyStrip e) ≠ "" →
        (resolve_original_recipient headers_json to_emails cc_emails).recipient =
          some (pyLower (pyStrip e)) ∧
        (resolve_original_recipient headers_json to_emails cc_emails).source = .to_cc_scan ∧
        (resolve_original_recipient headers_json to_emails cc_emails).confidence = .low ∧
        (resolve_original_recipient headers_json to_emails cc_emails).evidence.selected_from =
          some "to") ∧
      (pyLower (pyStrip e) = "" →
        (resolve_original_recipient headers_json to_emails cc_emails).recipient = none ∧
        (resolve_original_recipient headers_json to_emails cc_emails).source = .unknown ∧
        (resolve_original_recipient headers_json to_emails cc_emails).confidence = .low)) ∧
    (_header_candidates headers_json "x-gm-original-to" = [] →
      _header_candidates headers_json "delivered-to" = [] →
      _header_candidates headers_json "x-original-to" = [] →
      to_emails = [] →
      ∀ e t, cc_emails = e :: t →
      (pyLower (pyStrip e) ≠ "" →
        (resolve_original_recipient headers_json to_emails cc_emails).recipient =
          some (pyLower (pyStrip e)) ∧
        (resolve_original_recipient headers_json to_emails cc_emails).source = .to_cc_scan ∧
        (resolve_original_recipient headers_json to_emails cc_emails).confidence = .low ∧
        (resolve_original_recipient headers_json to_emails cc_emails).evidence.selected_from =
          some "cc") ∧
      (pyLower (pyStrip e) = "" →
        (resolve_original_recipient headers_json to_emails cc_emails).recipient = none ∧
        (resolve_original_recipient headers_json to_emails cc_emails).source = .unknown)) ∧
    (_header_candidates headers_json "x-gm-original-to" = [] →
      _header_candidates headers_json "delivered-to" = [] →
      _header_candidates headers_json "x-original-to" = [] →
      to_emails = [] → cc_emails = [] →
      (resolve_original_recipient headers_json to_emails cc_emails).recipient = none ∧
      (resolve_original_recipient headers_json to_emails cc_emails).source = .unknown ∧
      (resolve_original_recipient headers_json to_emails cc_emails).confidence = .low) := by
  refine ⟨?_, ?_, ?_, ?_, ?_, ?_⟩
  · intro v t hxg
    simp only [resolve_original_recipient, hxg]
  · intro hxg v t hdv
    simp [resolve_original_recipient, hxg, hdv]
  · intro hxg hdv v t hxo
    simp [resolve_original_recipient, hxg, hdv, hxo]
  · intro hxg hdv hxo e t hto
    subst hto
    constructor
    · intro hne
      simp only [resolve_original_recipient, hxg, hdv, hxo]
      rw [if_pos (List.cons_ne_nil e t), List.headD_cons, if_neg hne]
      exact ⟨rfl, rfl, rfl, rfl⟩
    · intro heq
      simp only [resolve_original_recipient, hxg, hdv, hxo]
      rw [if_pos (List.cons_ne_nil e t), List.headD_cons, if_pos heq]
      exact ⟨rfl, rfl, rfl⟩
  · intro hxg hdv hxo hto e t hcc
    subst hto hcc
    constructor
    · intro hne
      simp only [resolve_original_recipient, hxg, hdv, hxo]
      rw [if_neg (by simp), if_pos (List.cons_ne_nil e t), List.headD_cons, if_neg hne]
      exact ⟨rfl, rfl, rfl, rfl⟩
    · intro heq
      simp only [resolve_original_recipient, hxg, hdv, hxo]
      rw [if_neg (by simp), if_pos (List.cons_ne_nil e t), List.headD_cons, if_pos heq]
      exact ⟨rfl, rfl⟩
  · intro hxg hdv hxo hto hcc
    subst hto hcc
    simp only [resolve_original_recipient, hxg, hdv, hxo]
    rw [if_neg (by simp), if_neg (by simp)]
    exact ⟨rfl, rfl, rfl⟩

/-- C7: spam default. When the routing job reaches an occurrence (gate not yet
routed, ticket linked) whose lowercased recipient is not allowlisted — in
particular whenever it is empty or null — the linked ticket becomes status
"spam" with closed_at set, exactly one auto_spam event with
{occurrence_id, recipient} is appended, the occurrence is marked routed, the
whole outcome ignores the routing_rules table (no rule is evaluated), and an
empty recipient is never allowlisted. -/
theorem ticket_apply_routing_spam_default (db : PipelineDb) (now : Rat)
    (occurrence_id : Uuid) (occ : OccurrenceRow) (ticket_id : Uuid)
    (hocc : db.occurrences.find? (fun o => o.id == occurrence_id) = some occ)
    (hstate : ¬ occ.state = "routed")
    (hticket : occ.ticket_id = some ticket_id)
    (hallow : _is_allowlisted db.recipient_allowlist occ.organization_id
      (pyLower (occ.original_recipient.getD "")) = false) :
    ((ticket_apply_routing db now occurrence_id).tickets =
      db.tickets.map (fun t =>
        if t.organization_id == occ.organization_id && t.id == ticket_id then
          { t with status := "spam", closed_at := some now }
        else t)) ∧
    ((ticket_apply_routing db now occurrence_id).ticket_events =
      db.ticket_events ++
        [{ organization_id := occ.organization_id, ticket_id := ticket_id,
           event_type := "auto_spam",
           event_data := .auto_spam occurrence_id
             (pyLower (occ.original_recipient.getD "")) }]) ∧
    ((ticket_apply_routing db now occurrence_id).occurrences =
      updateOccurrence db.occurrences occurrence_id (fun o =>
        { o with routed_at := some now, route_error := none, state := "routed" })) ∧
    (∀ rules2 : List RoutingRuleRow,
      ticket_apply_routing { db with routing_rules := rules2 } now occurrence_id =
        { ticket_apply_routing db now occurrence_id with routing_rules := rules2 }) ∧
    (∀ (allowlist : List AllowlistRow) (org : Uuid), _is_allowlisted allowlist org "" = false) := by
  have main : ticket_apply_routing db now occurrence_id =
      _mark_routed (_mark_spam db now occ.organization_id ticket_id occurrence_id
        (pyLower (occ.original_recipient.getD ""))) now occurrence_id := by
    simp only [ticket_apply_routing, hocc, hticket]
    rw [if_neg hstate]
    simp only [hallow, Bool.false_eq_true, if_false]
  refine ⟨?_, ?_, ?_, ?_, ?_⟩
  · rw [main]; rfl
  · rw [main]; rfl
  · rw [main]; rfl
  · intro rules2
    have main2 : ticket_apply_routing { db with routing_rules := rules2 } now occurrence_id =
        _mark_routed (_mark_spam { db with routing_rules := rules2 } now occ.organization_id
          ticket_id occurrence_id (pyLower (occ.original_recipient.getD ""))) now
          occurrence_id := by
      simp only [ticket_apply_routing, hocc, hticket]
      rw [if_neg hstate]
      simp only [hallow, Bool.false_eq_true, if_false]
    rw [main, main2]
    rfl
  · intro allowlist org
    rfl

/-- Iterating rules skips every non-matching prefix and applies the first
matching rule, whatever follows it. -/
theorem applyFirstOf_skips (db : PipelineDb) (now : Rat) (org ticket_id : Uuid)
    (recipient sender_domain sender_email : String) (direction : Option String)
    (occurrence_id : Uuid) (pre : List RoutingRuleRow) (rule : RoutingRuleRow)
    (rest : List RoutingRuleRow)
    (hpre : ∀ r ∈ pre, _rule_matches r recipient sender_domain sender_email direction = false)
    (hm : _rule_matches rule recipient sender_domain sender_email direction = true) :
    applyFirstOf db now org ticket_id recipient sender_domain sender_email direction
      occurrence_id (pre ++ rule :: rest) =
      _apply_rule_actions db now org ticket_id rule occurrence_id := by
  induction pre with
  | nil => simp [applyFirstOf, hm]
  | cons p ps ih =>
    have hp := hpre p (List.mem_cons_self p ps)
    simp only [List.cons_append, applyFirstOf, hp, Bool.false_eq_true, if_false]
    exact ih (fun r hr => hpre r (List.mem_cons_of_mem p hr))

/-- C8: rule first-match. With the enabled rules in (priority ASC, id ASC)
order decomposed as pre ++ rule :: post where nothing in pre matches and rule
matches (all of its non-empty patterns fnmatch, direction agrees when both
sides are present), the routing evaluation applies exactly rule: the ticket is
updated by rule's actions when it has any (user assignment clearing the queue
and beating queue assignment, auto_close overriding set_status with closed_at
set), one routing_applied event with before/after snapshots is appended, and
replacing everything after rule changes nothing. -/
theorem apply_first_matching_rule_first_match (db : PipelineDb) (now : Rat)
    (org ticket_id occurrence_id : Uuid) (recipient : String)
    (feOpt : Option String) (dirStr : String)
    (pre post : List RoutingRuleRow) (rule : RoutingRuleRow) (before : TicketRow)
    (hsender : latestTicketSender db org ticket_id = some (feOpt, dirStr))
    (hrules : sortRules (db.routing_rules.filter (fun r =>
      r.organization_id == org && r.is_enabled)) = pre ++ rule :: post)
    (hpre : ∀ r ∈ pre, _rule_matches r recipient
      (senderDomainOf (pyLower (feOpt.getD ""))) (pyLower (feOpt.getD ""))
      (some dirStr) = false)
    (hmatch : _rule_matches rule recipient
      (senderDomainOf (pyLower (feOpt.getD ""))) (pyLower (feOpt.getD ""))
      (some dirStr) = true)
    (hticket : db.tickets.find? (fun t => t.organization_id == org && t.id == ticket_id)
      = some before) :
    (_apply_first_matching_rule db now org ticket_id recipient occurrence_id =
      _apply_rule_actions db now org ticket_id rule occurrence_id) ∧
    ((_apply_first_matching_rule db now org ticket_id recipient occurrence_id).tickets =
      (if ruleHasUpdates rule then
        db.tickets.map (fun t =>
          if t.organization_id == org && t.id == ticket_id then ruleUpdatedTicket rule now t
          else t)
      else db.tickets)) ∧
    ((_apply_first_matching_rule db now org ticket_id recipient occurrence_id).ticket_events =
      db.ticket_events ++
        [{ organization_id := org, ticket_id := ticket_id, event_type := "routing_applied",
           event_data := .routing_applied occurrence_id rule.id (snapshotOf before)
             (((if ruleHasUpdates rule then
                 db.tickets.map (fun t =>
                   if t.organization_id == org && t.id == ticket_id then
                     ruleUpdatedTicket rule now t
                   else t)
               else db.tickets).find? (fun t => t.organization_id == org &&
                 t.id == ticket_id)).map snapshotOf) }]) ∧
    (∀ post2, applyFirstOf db now org ticket_id recipient
        (senderDomainOf (pyLower (feOpt.getD ""))) (pyLower (feOpt.getD ""))
        (some dirStr) occurrence_id (pre ++ rule :: post2) =
      _apply_first_matching_rule db now org ticket_id recipient occurrence_id) ∧
    (∀ (r : RoutingRuleRow) (t : TicketRow), r.action_auto_close = true →
      (ruleUpdatedTicket r now t).status = "closed" ∧
      (ruleUpdatedTicket r now t).closed_at = some now) ∧
    (∀ (r : RoutingRuleRow) (t : TicketRow) (u : Uuid), r.action_assign_user_id = some u →
      (ruleUpdatedTicket r now t).assignee_user_id = some u ∧
      (ruleUpdatedTicket r now t).assignee_queue_id = none) := by
  have main : _apply_first_matching_rule db now org ticket_id recipient occurrence_id =
      _apply_rule_actions db now org ticket_id rule occurrence_id := by
    simp only [_apply_first_matching_rule, hsender, Option.map_some, hrules]
    exact applyFirstOf_skips db now org ticket_id recipient _ _ _ occurrence_id
      pre rule post hpre hmatch
  refine ⟨main, ?_, ?_, ?_, ?_, ?_⟩
  · rw [main]
    simp only [_apply_rule_actions, hticket]
  · rw [main]
    simp only [_apply_rule_actions, hticket]
  · intro post2
    rw [main]
    exact applyFirstOf_skips db now org ticket_id recipient _ _ _ occurrence_id
      pre rule post2 hpre hmatch
  · intro r t hc
    simp [ruleUpdatedTicket, hc]
  · intro r t u hu
    cases hs : r.action_set_status <;> by_cases hac : r.action_auto_close <;>
      simp [ruleUpdatedTicket, hu, hs, hac]

/-- C6: stitching precedence. For an occurrence past its gate with a canonical
message: (0) an existing ticket_messages row for (tenant, message) reuses its
ticket and creates nothing; else with the latest content row, (1) a UUID-valued
X-OSS-Ticket-ID header wins (get-or-create that ticket id, link confidence
high); else (2) a reply_to address ticket+<code>@ naming an existing ticket
takes it (reason reply_to_token, high); else (3) the first thread ref —
in_reply_to before references — resolving through message_rfc_ids and
ticket_messages wins (reason threading, medium); else (4) a fresh ticket is
created with status new, stitch_reason new_message and stitch_confidence low. -/
theorem occurrence_stitch_precedence (db : PipelineDb) (now : Rat)
    (occurrence_id message_id : Uuid) (occ : OccurrenceRow)
    (hocc : db.occurrences.find? (fun o => o.id == occurrence_id) = some occ)
    (hgate : ¬(occ.ticket_id ≠ none ∧ (occ.state = "stitched" ∨ occ.state = "routed")))
    (hmsg : occ.message_id = some message_id) :
    (∀ link, db.ticket_messages.find? (fun tm => tm.organization_id == occ.organization_id &&
        tm.message_id == message_id) = some link →
      (occurrence_stitch db now occurrence_id).tickets = db.tickets ∧
      (occurrence_stitch db now occurrence_id).ticket_messages = db.ticket_messages ∧
      (occurrence_stitch db now occurrence_id).occurrences =
        updateOccurrence db.occurrences occurrence_id (fun o =>
          { o with ticket_id := some link.ticket_id, stitched_at := some now,
                   stitch_error := none, state := "stitched" })) ∧
    (db.ticket_messages.find? (fun tm => tm.organization_id == occ.organization_id &&
        tm.message_id == message_id) = none →
      ∀ content, latestContent db.message_contents occ.organization_id message_id
        = some content →
      (∀ tid, extract_uuid_header content.headers_json "X-OSS-Ticket-ID" = some tid →
        (occurrence_stitch db now occurrence_id).tickets =
          (if db.tickets.any (fun t => t.organization_id == occ.organization_id &&
              t.id == tid) then db.tickets
           else db.tickets ++
            [{ id := tid, organization_id := occ.organization_id,
               ticket_code := db.ticket_code_supply.headD "tkt-modelfresh", status := "new",
               priority := "normal", subject := content.subject,
               subject_norm := content.subject_norm, requester_email := content.from_email,
               requester_name := content.from_name, first_message_at := content.date_header,
               last_message_at := content.date_header, closed_at := none,
               assignee_user_id := none, assignee_queue_id := none,
               stitch_reason := some "x_oss_ticket_id", stitch_confidence := some "high" }]) ∧
        (occurrence_stitch db now occurrence_id).ticket_messages =
          db.ticket_messages ++
            [{ organization_id := occ.organization_id, ticket_id := tid,
               message_id := message_id, stitch_reason := "x_oss_ticket_id",
               stitch_confidence := "high" }] ∧
        (occurrence_stitch db now occurrence_id).occurrences =
          updateOccurrence db.occurrences occurrence_id (fun o =>
            { o with ticket_id := some tid, stitched_at := some now, stitch_error := none,
                     state := "stitched" })) ∧
      (extract_uuid_header content.headers_json "X-OSS-Ticket-ID" = none →
        (∀ tid, _try_reply_to_token db.tickets occ.organization_id content.reply_to_emails
            = some tid →
          (occurrence_stitch db now occurrence_id).tickets = db.tickets ∧
          (occurrence_stitch db now occurrence_id).ticket_messages =
            db.ticket_messages ++
              [{ organization_id := occ.organization_id, ticket_id := tid,
                 message_id := message_id, stitch_reason := "reply_to_token",
                 stitch_confidence := "high" }] ∧
          (occurrence_stitch db now occurrence_id).occurrences =
            updateOccurrence db.occurrences occurrence_id (fun o =>
              { o with ticket_id := some tid, stitched_at := some now, stitch_error := none,
                       state := "stitched" })) ∧
        (_try_reply_to_token db.tickets occ.organization_id content.reply_to_emails = none →
          (∀ tid, _try_threading_stitch db occ.organization_id message_id = some tid →
            (occurrence_stitch db now occurrence_id).tickets = db.tickets ∧
            (occurrence_stitch db now occurrence_id).ticket_messages =
              db.ticket_messages ++
                [{ organization_id := occ.organization_id, ticket_id := tid,
                   message_id := message_id, stitch_reason := "threading",
                   stitch_confidence := "medium" }] ∧
            (occurrence_stitch db now occurrence_id).occurrences =
              updateOccurrence db.occurrences occurrence_id (fun o =>
                { o with ticket_id := some tid, stitched_at := some now,
                         stitch_error := none, state := "stitched" })) ∧
          (_try_threading_stitch db occ.organization_id message_id = none →
            (occurrence_stitch db now occurrence_id).tickets =
              db.tickets ++
                [{ id := db.next_ticket_id, organization_id := occ.organization_id,
                   ticket_code := db.ticket_code_supply.headD "tkt-modelfresh",
                   status := "new", priority := "normal", subject := content.subject,
                   subject_norm := content.subject_norm,
                   requester_email := content.from_email,
                   requester_name := content.from_name,
                   first_message_at := content.date_header,
                   last_message_at := content.date_header, closed_at := none,
                   assignee_user_id := none, assignee_queue_id := none,
                   stitch_reason := some "new_message",
                   stitch_confidence := some "low" }] ∧
            (occurrence_stitch db now occurrence_id).ticket_messages =
              db.ticket_messages ++
                [{ organization_id := occ.organization_id, ticket_id := db.next_ticket_id,
                   message_id := message_id, stitch_reason := "new_ticket",
                   stitch_confidence := "low" }] ∧
            (occurrence_stitch db now occurrence_id).occurrences =
              updateOccurrence db.occurrences occurrence_id (fun o =>
                { o with ticket_id := some db.next_ticket_id, stitched_at := some now,
                         stitch_error := none, state := "stitched" }))))) := by
  constructor
  · intro link hlink
    simp only [occurrence_stitch, hocc]
    rw [if_neg hgate]
    simp only [hmsg, hlink]
    refine ⟨?_, ?_, ?_⟩ <;> first | rfl | trivial
  · intro hlink content hcontent
    have hnol : db.ticket_messages.any (fun tm =>
        tm.organization_id == occ.organization_id && tm.message_id == message_id) = false := by
      rw [List.any_eq_false]
      intro x hx
      simpa using List.find?_eq_none.mp hlink x hx
    constructor
    · intro tid htid
      simp only [occurrence_stitch, hocc]
      rw [if_neg hgate]
      simp only [hmsg, hlink, hcontent, htid]
      simp only [_get_or_create_ticket_with_id, drawTicketCode]
      cases hexist : db.tickets.any (fun t => t.organization_id == occ.organization_id &&
          t.id == tid) with
      | false =>
        simp only [hexist, Bool.false_eq_true, if_false, _enqueue_routing, _mark_stitched,
          _link_message, hnol]
        refine ⟨?_, ?_, ?_⟩ <;> first | rfl | trivial
      | true =>
        simp only [hexist, if_true, _enqueue_routing, _mark_stitched, _link_message, hnol,
          Bool.false_eq_true, if_false]
        refine ⟨?_, ?_, ?_⟩ <;> first | rfl | trivial
    · intro hx
      constructor
      · intro tid htid
        simp only [occurrence_stitch, hocc]
        rw [if_neg hgate]
        simp only [hmsg, hlink, hcontent, hx, htid]
        simp only [_enqueue_routing, _mark_stitched, _link_message, hnol,
          Bool.false_eq_true, if_false]
        refine ⟨?_, ?_, ?_⟩ <;> first | rfl | trivial
      · intro hreply
        constructor
        · intro tid htid
          simp only [occurrence_stitch, hocc]
          rw [if_neg hgate]
          simp only [hmsg, hlink, hcontent, hx, hreply, htid]
          simp only [_enqueue_routing, _mark_stitched, _link_message, hnol,
            Bool.false_eq_true, if_false]
          refine ⟨?_, ?_, ?_⟩ <;> first | rfl | trivial
        · intro hthread
          simp only [occurrence_stitch, hocc]
          rw [if_neg hgate]
          simp only [hmsg, hlink, hcontent, hx, hreply, hthread]
          simp only [_enqueue_routing, _mark_stitched, _link_message, _create_ticket,
            drawTicketCode, hnol, Bool.false_eq_true, if_false]
          refine ⟨?_, ?_, ?_⟩ <;> first | rfl | trivial

/-- C9: HistoryExpired recovery. On an enabled, unpaused mailbox with a
gmail_history_id, when the history listing raises HistoryExpired the function
returns normally (Except.ok, so the enclosing job succeeds), records a
last_sync_error mentioning the expired history, leaves every mailbox's
gmail_history_id and last_incremental_sync_at unchanged, and enqueues a
mailbox_backfill under dedupe key "mailbox_backfill:<mailbox>" so that, when at
most one live backfill existed before, exactly one exists after. -/
theorem sync_history_expired_recovery (db : SyncDb) (now : Rat) (org mid : Uuid)
    (tok : String) (historyTrace : List (Except GmailErr GmailHistoryPage))
    (rawOf : String → Except GmailErr GmailMessageRaw) (mailbox : MailboxRow) (h : Nat)
    (hload : _load_mailbox_for_sync db.mailboxes now org mid = some mailbox)
    (hhist : mailbox.gmail_history_id = some h)
    (hexp : runHistoryListing historyTrace h [] = .error .historyExpired) :
    (sync_mailbox_history db now org mid (.ok tok) historyTrace rawOf =
      .ok ((enqueue_mailbox_backfill
        { db with mailboxes := setMailbox db.mailboxes mid (fun mb =>
            { mb with last_sync_error := some "Gmail history is invalid/expired; queued full backfill" }) }
        now org mid "history_invalid").2)) ∧
    (∀ db2, sync_mailbox_history db now org mid (.ok tok) historyTrace rawOf = .ok db2 →
      db2.mailboxes.map (fun mb => mb.gmail_history_id) =
        db.mailboxes.map (fun mb => mb.gmail_history_id) ∧
      db2.mailboxes.map (fun mb => mb.last_incremental_sync_at) =
        db.mailboxes.map (fun mb => mb.last_incremental_sync_at) ∧
      (∀ mb ∈ db2.mailboxes, mb.id = mid →
        mb.last_sync_error =
          some "Gmail history is invalid/expired; queued full backfill") ∧
      (countLiveBackfill db.jobs org ("mailbox_backfill:" ++ toString mid) ≤ 1 →
        countLiveBackfill db2.jobs org ("mailbox_backfill:" ++ toString mid) = 1)) := by
  have main : sync_mailbox_history db now org mid (.ok tok) historyTrace rawOf =
      .ok ((enqueue_mailbox_backfill
        { db with mailboxes := setMailbox db.mailboxes mid (fun mb =>
            { mb with last_sync_error := some "Gmail history is invalid/expired; queued full backfill" }) }
        now org mid "history_invalid").2) := by
    simp only [sync_mailbox_history, hload, hhist, hexp]
  refine ⟨main, ?_⟩
  intro db2 hdb2
  rw [main] at hdb2
  replace hdb2 := (Except.ok.injEq _ _).mp hdb2.symm
  subst hdb2
  refine ⟨?_, ?_, ?_, ?_⟩
  · simp only [enqueue_mailbox_backfill, enqueue_job, setMailbox, List.map_map]
    refine List.map_congr_left ?_
    intro mb _
    by_cases hm : mb.id = mid <;> simp [hm]
  · simp only [enqueue_mailbox_backfill, enqueue_job, setMailbox, List.map_map]
    refine List.map_congr_left ?_
    intro mb _
    by_cases hm : mb.id = mid <;> simp [hm]
  · intro mb hmb hid
    have hmb2 : mb ∈ setMailbox db.mailboxes mid (fun mb =>
        { mb with last_sync_error := some "Gmail history is invalid/expired; queued full backfill" }) := by
      simpa [enqueue_mailbox_backfill, enqueue_job] using hmb
    rw [setMailbox, List.mem_map] at hmb2
    obtain ⟨orig, _, horig⟩ := hmb2
    by_cases hm : orig.id == mid
    · rw [if_pos hm] at horig
      rw [← horig]
    · rw [if_neg hm] at horig
      rw [← horig] at hid
      exact absurd (beq_iff_eq.mpr hid) hm
  · intro hle
    simp only [enqueue_mailbox_backfill, enqueue_job]
    rcases hdup : liveDuplicate db.jobs (some org) JobType.mailbox_backfill
        ("mailbox_backfill:" ++ toString mid) with _ | _
    · -- no live duplicate: the filter was empty and gains exactly the new job
      simp only [hdup, Bool.false_eq_true, if_false]
      have hzero : countLiveBackfill db.jobs org ("mailbox_backfill:" ++ toString mid) = 0 := by
        unfold countLiveBackfill
        rw [List.length_eq_zero, List.filter_eq_nil_iff]
        intro j hj
        intro hpj
        have : liveDuplicate db.jobs (some org) JobType.mailbox_backfill
            ("mailbox_backfill:" ++ toString mid) = true := by
          unfold liveDuplicate
          rw [List.any_eq_true]
          exact ⟨j, hj, hpj⟩
        rw [hdup] at this
        exact absurd this (by simp)
      unfold countLiveBackfill at hzero ⊢
      rw [List.filter_append, List.length_append, hzero]
      simp
    · -- a live duplicate exists: jobs unchanged, and the count is already ≥ 1
      simp only [hdup, if_true]
      have hpos : 0 < countLiveBackfill db.jobs org ("mailbox_backfill:" ++ toString mid) := by
        unfold liveDuplicate at hdup
        rw [List.any_eq_true] at hdup
        obtain ⟨j, hj, hpj⟩ := hdup
        unfold countLiveBackfill
        rw [List.length_pos]
        intro hnil
        have : j ∈ List.filter (fun j =>
            j.organization_id == some org && j.jobType == JobType.mailbox_backfill &&
            j.dedupe_key == some ("mailbox_backfill:" ++ toString mid) &&
            (j.status == JobStatus.queued || j.status == JobStatus.running)) db.jobs := by
          rw [List.mem_filter]
          exact ⟨hj, hpj⟩
        rw [hnil] at this
        exact absurd this (List.not_mem_nil j)
      omega

/-- C7 witness: a stitched occurrence with a null recipient and an empty
allowlist ends with its ticket marked spam and closed. -/
theorem ticket_apply_routing_spam_default_witness :
    (ticket_apply_routing spamDb 3 1).tickets =
      spamDb.tickets.map (fun t =>
        if t.organization_id == spamOcc.organization_id && t.id == 5 then
          { t with status := "spam", closed_at := some (3 : Rat) }
        else t) :=
  (ticket_apply_routing_spam_default spamDb 3 1 spamOcc 5 (by decide) (by decide) rfl
    (by decide)).1

/-- C8 witness: with enabled rules of priorities 10 and 20 both matching, the
evaluation applies exactly the priority-10 rule. -/
theorem apply_first_matching_rule_first_match_witness :
    _apply_first_matching_rule routeDb 4 1 5 "support@acme.test" 9 =
      _apply_rule_actions routeDb 4 1 5 rule10 9 :=
  (apply_first_matching_rule_first_match routeDb 4 1 5 9 "support@acme.test"
    (some "a@x.com") "inbound" [] [rule20] rule10 spamTicket (by decide) (by decide)
    (by intro r hr; cases hr) (by decide) (by decide)).1

/-- C6 witness: re-stitching an occurrence whose message already has a
ticket_messages link reuses the ticket and creates no ticket and no link. -/
theorem occurrence_stitch_precedence_witness :
    (occurrence_stitch stitchDb 4 1).tickets = stitchDb.tickets ∧
    (occurrence_stitch stitchDb 4 1).ticket_messages = stitchDb.ticket_messages :=
  ⟨((occurrence_stitch_precedence stitchDb 4 1 3 stitchOcc (by decide) (by decide)
      rfl).1 stitchLink (by decide)).1,
   ((occurrence_stitch_precedence stitchDb 4 1 3 stitchOcc (by decide) (by decide)
      rfl).1 stitchLink (by decide)).2.1⟩

/-- C9 witness: a history listing that raises HistoryExpired makes
sync_mailbox_history return ok with the error recorded and a backfill enqueued. -/
theorem sync_history_expired_recovery_witness :
    sync_mailbox_history syncDb0 0 1 2 (.ok "tok") [.error .historyExpired] syncRawOf =
      .ok ((enqueue_mailbox_backfill
        { syncDb0 with mailboxes := setMailbox syncDb0.mailboxes 2 (fun mb =>
            { mb with last_sync_error := some "Gmail history is invalid/expired; queued full backfill" }) }
        0 1 2 "history_invalid").2) :=
  (sync_history_expired_recovery syncDb0 0 1 2 "tok" [.error .historyExpired] syncRawOf
    syncMailbox 10 (by decide) rfl rfl).1

end OSSTicketing
